import Mathlib

/-!
# AXI timer interrupt demo (ZUBoard): a model of the interrupt protocol

Embedding of `vitis_irq/hello_world/src/main.c` (non-SDT build with the
GIC, `TESTAPP_GEN` undefined), of the handler of
`vitis_irq/hello_world2/src/helloworld.c` (the same text) and of
`SetupInterruptSystem` of `vitis_irq/hello_world/src/helloworld.c`.

* The interrupt handler `TimerCounterHandler` runs to completion, so it is a
  function on the program state.
* The main line (`main` calling `TmrCtrIntrExample`, which calls
  `TmrCtrSetupIntrSystem` and `TmrCtrDisableIntr`) is a program counter
  machine with one step per driver call or access to the shared variable
  `TimerExpired`; the handler may be dispatched between any two steps.
* The Xilinx drivers (`xtmrctr`, `xscugic`, `xil_exception`) are not part of
  the repository; what their calls return is an input (`Env`), and what they
  do to the device is the data model of the specification (`Hw`).
-/

namespace TmrCtr

/-! ## Constants -/

/-- Status `XST_SUCCESS`. It is declared in the BSP header `xstatus.h`, which
is not in the repository; the value is the header's. The program only
compares a status with `XST_SUCCESS`, which differs from `XST_FAILURE`. -/
def XST_SUCCESS : Int := 0

/-- Status `XST_FAILURE`, declared in the BSP header `xstatus.h` like
`XST_SUCCESS`. -/
def XST_FAILURE : Int := 1

/-- Option bit `XTC_DOWN_COUNT_OPTION`, declared in the BSP header
`xtmrctr.h`, which is not in the repository; the value is the header's. -/
def XTC_DOWN_COUNT_OPTION : Nat := 0x20

/-- Option bit `XTC_INT_MODE_OPTION`, declared in the BSP header `xtmrctr.h`;
the value is the header's. The bit is set in the option word
`XTC_INT_MODE_OPTION | XTC_AUTO_RELOAD_OPTION` the main line programs and not
in the word 0 the handler programs. -/
def XTC_INT_MODE_OPTION : Nat := 0x08

/-- Option bit `XTC_AUTO_RELOAD_OPTION`, declared in the BSP header
`xtmrctr.h`; the value is the header's. -/
def XTC_AUTO_RELOAD_OPTION : Nat := 0x04

/-- `#define TIMER_CNTR_0 0` (main.c line 52). -/
def TIMER_CNTR_0 : Nat := 0

/-- `#define RESET_VALUE 0xFA0A1F00` (main.c line 70). -/
def RESET_VALUE : Nat := 0xFA0A1F00

/-- Value of a C `int` after an arithmetic result `x`: two's complement on 32
bits, as the target (Cortex-A53) computes it. -/
def wrapInt32 (x : Int) : Int := (x + 2147483648) % 4294967296 - 2147483648

/-! ## Device state (data model of the specification) -/

/-- Modelled from the spec: the `TimerChannel` of section 3, "current reload
value, mode flags (interrupt-enabled, auto-reload, count-direction),
running/stopped state"; the driver that owns it (`xtmrctr`) is not in the
repository. The mode flags are kept as the option word given to
`XTmrCtr_SetOptions`. -/
structure TimerChannel where
  options : Nat
  resetValue : Nat
  running : Bool
  deriving DecidableEq, Repr

/-- Modelled from the spec: the `InterruptBinding` of section 3 for one
interrupt line, a handler bound to the line (`connect`/`disconnect`) and the
delivery gate (`enable`/`disable`); the driver (`xscugic`) is not in the
repository. -/
structure InterruptBinding where
  connected : Bool
  enabled : Bool
  deriving DecidableEq, Repr

/-- Modelled from the spec: the devices of section 3, the timer channels by
`TmrCtrNumber`, the interrupt lines by `IntrId`, and the process-wide
`ExceptionVectorTable` (dispatcher registered, exception delivery enabled). -/
structure Hw where
  chan : Nat → TimerChannel
  line : Nat → InterruptBinding
  dispatcherInstalled : Bool
  exceptionsEnabled : Bool

/-- The interrupt-enabled mode flag of an option word: the bit
`XTC_INT_MODE_OPTION`. -/
def intMode (options : Nat) : Bool := options &&& XTC_INT_MODE_OPTION != 0

/-- Modelled from the spec: the devices before the bring-up (the
`Uninitialized` state of section 4.1; section 3 has the binding "created
during bring-up"): no option set, nothing running, no line bound, no
dispatcher installed. -/
def Hw.reset : Hw where
  chan := fun _ => { options := 0, resetValue := 0, running := false }
  line := fun _ => { connected := false, enabled := false }
  dispatcherInstalled := false
  exceptionsEnabled := false

/-! ## Driver calls -/

/-- The calls the program makes into the BSP, with the arguments that are
values (instance pointers and handler pointers are left out). -/
inductive Call where
  | XTmrCtr_Initialize (DeviceId : Nat)
  | XTmrCtr_SelfTest (TmrCtrNumber : Nat)
  | XScuGic_LookupConfig (DeviceId : Nat)
  | XScuGic_CfgInitialize
  | XScuGic_SetPriorityTriggerType (IntrId : Nat) (Priority : Nat) (Trigger : Nat)
  | XScuGic_Connect (IntrId : Nat)
  | XScuGic_Enable (IntrId : Nat)
  | Xil_ExceptionInit
  | Xil_ExceptionRegisterHandler
  | Xil_ExceptionEnable
  | XTmrCtr_SetHandler
  | XTmrCtr_SetOptions (TmrCtrNumber : Nat) (Options : Nat)
  | XTmrCtr_SetResetValue (TmrCtrNumber : Nat) (Value : Nat)
  | XTmrCtr_Start (TmrCtrNumber : Nat)
  | XTmrCtr_Stop (TmrCtrNumber : Nat)
  | XScuGic_Disable (IntrId : Nat)
  | XScuGic_Disconnect (IntrId : Nat)
  | XTmrCtr_IsExpired (TmrCtrNumber : Nat)
  | xil_printf (fmt : String) (args : List Int)
  deriving DecidableEq, Repr

/-- Modelled from the spec: what a driver call that succeeded does to the
devices (sections 4.1 and 4.2). `configure` is a "pure state update" of the
mode flags, `setReloadValue` sets the reload value, `start`/`stop` move
between Stopped and Running, `connect`/`disconnect` bind and unbind a line,
`enable`/`disable` "gate delivery without unbinding", and `installDispatcher`
registers the dispatch routine and enables exception delivery. The other
calls leave the modelled state alone. -/
def Hw.apply (hw : Hw) : Call → Hw
  | .XTmrCtr_SetOptions n o =>
      { hw with chan := fun m => if m = n then { hw.chan m with options := o } else hw.chan m }
  | .XTmrCtr_SetResetValue n v =>
      { hw with chan := fun m => if m = n then { hw.chan m with resetValue := v } else hw.chan m }
  | .XTmrCtr_Start n =>
      { hw with chan := fun m => if m = n then { hw.chan m with running := true } else hw.chan m }
  | .XTmrCtr_Stop n =>
      { hw with chan := fun m => if m = n then { hw.chan m with running := false } else hw.chan m }
  | .XScuGic_Connect i =>
      { hw with line := fun j => if j = i then { hw.line j with connected := true } else hw.line j }
  | .XScuGic_Disconnect i =>
      { hw with
        line := fun j => if j = i then { hw.line j with connected := false } else hw.line j }
  | .XScuGic_Enable i =>
      { hw with line := fun j => if j = i then { hw.line j with enabled := true } else hw.line j }
  | .XScuGic_Disable i =>
      { hw with line := fun j => if j = i then { hw.line j with enabled := false } else hw.line j }
  | .Xil_ExceptionRegisterHandler => { hw with dispatcherInstalled := true }
  | .Xil_ExceptionEnable => { hw with exceptionsEnabled := true }
  | _ => hw

/-! ## Program state -/

/-- The execution context that makes a call: the main line or the interrupt
handler. -/
inductive Ctx where
  | main
  | isr
  deriving DecidableEq, Repr

/-- One entry of the call log. -/
structure Ev where
  ctx : Ctx
  call : Call
  deriving DecidableEq, Repr

/-- Program points of the main line (main.c, non-SDT build with the GIC). A
point names the statement that runs next. -/
inductive Pc where
  /-- `Status = XTmrCtr_Initialize(...)` and its check, lines 197-203. -/
  | tmrInit
  /-- `Status = XTmrCtr_SelfTest(...)` and its check, lines 209-212. -/
  | selfTest
  /-- `IntcConfig = XScuGic_LookupConfig(...)` and its check, lines 419-422. -/
  | gicLookup
  /-- `Status = XScuGic_CfgInitialize(...)` and its check, lines 424-428. -/
  | gicCfgInit
  /-- `XScuGic_SetPriorityTriggerType(..., 0xA0, 0x3)`, line 431. -/
  | gicSetPriority
  /-- `Status = XScuGic_Connect(...)` and its check, lines 438-443. -/
  | gicConnect
  /-- `XScuGic_Enable(...)`, line 448. -/
  | gicEnable
  /-- `Xil_ExceptionInit()`, line 455. -/
  | excInit
  /-- `Xil_ExceptionRegisterHandler(...)`, line 460. -/
  | excRegister
  /-- `Xil_ExceptionEnable()` and `return XST_SUCCESS`, lines 468-471. -/
  | excEnable
  /-- `TmrCtrSetupIntrSystem` has returned `Status`; the check of line 230. -/
  | setupReturned (Status : Int)
  /-- `XTmrCtr_SetHandler(...)`, line 240. -/
  | setHandler
  /-- `XTmrCtr_SetOptions(...)`, line 249. -/
  | setOptions
  /-- `XTmrCtr_SetResetValue(...)`, line 257. -/
  | setResetValue
  /-- `XTmrCtr_Start(...)`, line 263. -/
  | start
  /-- `TimerExpired = 0`, line 265. -/
  | resetExpired
  /-- `while (TimerExpired == LastTimerExpired)`, line 272. -/
  | waitLoop
  /-- `LastTimerExpired = TimerExpired`, line 274. -/
  | latch
  /-- `if (TimerExpired == 10)`, line 280. -/
  | boundCheck
  /-- `XTmrCtr_Stop(...); break`, lines 282-283. -/
  | stop
  /-- `XScuGic_Disable(...)` in `TmrCtrDisableIntr`, line 504. -/
  | gicDisable
  /-- `XScuGic_Disconnect(...)` in `TmrCtrDisableIntr`, line 505. -/
  | gicDisconnect
  /-- `return XST_SUCCESS` of `TmrCtrIntrExample`, line 292. -/
  | exampleReturn
  /-- `TmrCtrIntrExample` has returned `Status` to `main`; the check of line 142. -/
  | mainCheck (Status : Int)
  /-- `main` has returned `Status`. -/
  | exited (Status : Int)
  deriving DecidableEq, Repr

/-- The state of the program: the program point of the main line, its local
`LastTimerExpired`, the shared `static volatile int TimerExpired`, the
devices, and the log of driver calls in the order they were made. -/
structure State where
  pc : Pc
  LastTimerExpired : Int
  TimerExpired : Int
  hw : Hw
  trace : List Ev

/-- A call is made and logged; the devices stay as they are (a call that
failed, or one without effect on the modelled devices). -/
def State.log (s : State) (ctx : Ctx) (c : Call) : State :=
  { s with trace := s.trace ++ [⟨ctx, c⟩] }

/-- A call is made, logged, and takes effect on the devices. -/
def State.call (s : State) (ctx : Ctx) (c : Call) : State :=
  { s with hw := s.hw.apply c, trace := s.trace ++ [⟨ctx, c⟩] }

/-- `TimerCounterHandler` (main.c lines 314-334, helloworld.c of hello_world2
lines 45-64). `expired` is what `XTmrCtr_IsExpired` returns. -/
def TimerCounterHandler (TmrCtrNumber : Nat) (expired : Bool) (s : State) : State :=
  let s := s.log .isr (.XTmrCtr_IsExpired TmrCtrNumber)
  if expired then
    let s := { s with TimerExpired := wrapInt32 (s.TimerExpired + 1) }
    let s := s.log .isr (.xil_printf "IRQ %d\r\n" [s.TimerExpired])
    if s.TimerExpired ≥ 10 then
      s.call .isr (.XTmrCtr_SetOptions TmrCtrNumber 0)
    else
      s
  else
    s

/-! ## The main line -/

/-- The arguments of `TmrCtrIntrExample` and the controller's device id:
`TMRCTR_DEVICE_ID`, `TMRCTR_INTERRUPT_ID` and `INTC_DEVICE_ID` come from
`xparameters.h`, which is not in the repository. -/
structure Config where
  DeviceId : Nat
  IntrId : Nat
  INTC_DEVICE_ID : Nat
  deriving DecidableEq, Repr

/-- What the fallible driver calls return in one run: a status for
`XTmrCtr_Initialize`, `XTmrCtr_SelfTest`, `XScuGic_CfgInitialize` and
`XScuGic_Connect`, and whether `XScuGic_LookupConfig` finds a configuration
(returns a pointer other than `NULL`). -/
structure Env where
  tmrInit : Int
  selfTest : Int
  lookupFound : Bool
  cfgInit : Int
  connect : Int
  deriving DecidableEq, Repr

/-- Move the main line to a program point. -/
def State.goto (s : State) (pc : Pc) : State := { s with pc := pc }

/-- One statement of `TmrCtrSetupIntrSystem` (main.c lines 361-472, the
branch without `XPAR_INTC_0_DEVICE_ID`); `none` at a program point of another
function. A `return` leads to the point `setupReturned` of the caller. -/
def TmrCtrSetupIntrSystem (cfg : Config) (env : Env) (s : State) : Option State :=
  match s.pc with
  | .gicLookup =>
      if env.lookupFound = false then
        some ((s.log .main (.XScuGic_LookupConfig cfg.INTC_DEVICE_ID)).goto
          (.setupReturned XST_FAILURE))
      else
        some ((s.call .main (.XScuGic_LookupConfig cfg.INTC_DEVICE_ID)).goto .gicCfgInit)
  | .gicCfgInit =>
      if env.cfgInit ≠ XST_SUCCESS then
        some ((s.log .main .XScuGic_CfgInitialize).goto (.setupReturned XST_FAILURE))
      else
        some ((s.call .main .XScuGic_CfgInitialize).goto .gicSetPriority)
  | .gicSetPriority =>
      some ((s.call .main (.XScuGic_SetPriorityTriggerType cfg.IntrId 0xA0 0x3)).goto .gicConnect)
  | .gicConnect =>
      if env.connect ≠ XST_SUCCESS then
        some ((s.log .main (.XScuGic_Connect cfg.IntrId)).goto (.setupReturned env.connect))
      else
        some ((s.call .main (.XScuGic_Connect cfg.IntrId)).goto .gicEnable)
  | .gicEnable => some ((s.call .main (.XScuGic_Enable cfg.IntrId)).goto .excInit)
  | .excInit => some ((s.call .main .Xil_ExceptionInit).goto .excRegister)
  | .excRegister => some ((s.call .main .Xil_ExceptionRegisterHandler).goto .excEnable)
  | .excEnable => some ((s.call .main .Xil_ExceptionEnable).goto (.setupReturned XST_SUCCESS))
  | _ => none

/-- One statement of `TmrCtrDisableIntr` (main.c lines 491-510, the branch
without `XPAR_INTC_0_DEVICE_ID`); `none` at a program point of another
function. -/
def TmrCtrDisableIntr (cfg : Config) (s : State) : Option State :=
  match s.pc with
  | .gicDisable => some ((s.call .main (.XScuGic_Disable cfg.IntrId)).goto .gicDisconnect)
  | .gicDisconnect => some ((s.call .main (.XScuGic_Disconnect cfg.IntrId)).goto .exampleReturn)
  | _ => none

/-- One statement of `TmrCtrIntrExample` (main.c lines 179-293), the
statements of `TmrCtrSetupIntrSystem` and `TmrCtrDisableIntr` in the place of
their calls. A `return` leads to the point `mainCheck` of `main`; `none` at
a program point of `main`. -/
def TmrCtrIntrExample (cfg : Config) (env : Env) (s : State) : Option State :=
  match s.pc with
  | .tmrInit =>
      if env.tmrInit ≠ XST_SUCCESS then
        some ((s.log .main (.XTmrCtr_Initialize cfg.DeviceId)).goto (.mainCheck XST_FAILURE))
      else
        some ((s.call .main (.XTmrCtr_Initialize cfg.DeviceId)).goto .selfTest)
  | .selfTest =>
      if env.selfTest ≠ XST_SUCCESS then
        some ((s.log .main (.XTmrCtr_SelfTest TIMER_CNTR_0)).goto (.mainCheck XST_FAILURE))
      else
        some ((s.call .main (.XTmrCtr_SelfTest TIMER_CNTR_0)).goto .gicLookup)
  | .gicLookup => TmrCtrSetupIntrSystem cfg env s
  | .gicCfgInit => TmrCtrSetupIntrSystem cfg env s
  | .gicSetPriority => TmrCtrSetupIntrSystem cfg env s
  | .gicConnect => TmrCtrSetupIntrSystem cfg env s
  | .gicEnable => TmrCtrSetupIntrSystem cfg env s
  | .excInit => TmrCtrSetupIntrSystem cfg env s
  | .excRegister => TmrCtrSetupIntrSystem cfg env s
  | .excEnable => TmrCtrSetupIntrSystem cfg env s
  | .setupReturned Status =>
      if Status ≠ XST_SUCCESS then some (s.goto (.mainCheck XST_FAILURE))
      else some (s.goto .setHandler)
  | .setHandler => some ((s.call .main .XTmrCtr_SetHandler).goto .setOptions)
  | .setOptions =>
      some ((s.call .main (.XTmrCtr_SetOptions TIMER_CNTR_0
        (XTC_INT_MODE_OPTION ||| XTC_AUTO_RELOAD_OPTION))).goto .setResetValue)
  | .setResetValue =>
      some ((s.call .main (.XTmrCtr_SetResetValue TIMER_CNTR_0 RESET_VALUE)).goto .start)
  | .start => some ((s.call .main (.XTmrCtr_Start TIMER_CNTR_0)).goto .resetExpired)
  | .resetExpired => some ({ s with TimerExpired := 0 }.goto .waitLoop)
  | .waitLoop =>
      if s.TimerExpired = s.LastTimerExpired then some (s.goto .waitLoop)
      else some (s.goto .latch)
  | .latch => some ({ s with LastTimerExpired := s.TimerExpired }.goto .boundCheck)
  | .boundCheck =>
      if s.TimerExpired = 10 then some (s.goto .stop)
      else some (s.goto .waitLoop)
  | .stop => some ((s.call .main (.XTmrCtr_Stop TIMER_CNTR_0)).goto .gicDisable)
  | .gicDisable => TmrCtrDisableIntr cfg s
  | .gicDisconnect => TmrCtrDisableIntr cfg s
  | .exampleReturn => some (s.goto (.mainCheck XST_SUCCESS))
  | .mainCheck _ => none
  | .exited _ => none

/-- One statement of the main line: `main` (main.c lines 125-150), the
statements of `TmrCtrIntrExample` in the place of its call. `none` once
`main` has returned. -/
def main (cfg : Config) (env : Env) (s : State) : Option State :=
  match s.pc with
  | .mainCheck Status =>
      if Status ≠ XST_SUCCESS then
        some ((s.log .main (.xil_printf "Tmrctr interrupt Example Failed\r\n" [])).goto
          (.exited XST_FAILURE))
      else
        some ((s.log .main (.xil_printf "Successfully ran Tmrctr interrupt Example\r\n" [])).goto
          (.exited XST_SUCCESS))
  | .exited _ => none
  | _ => TmrCtrIntrExample cfg env s

/-! ## The two contexts together -/

/-- What happens next: the main line runs one statement, or the dispatcher
invokes the handler for a timer channel (`expired` is what
`XTmrCtr_IsExpired` then returns). -/
inductive Tick where
  | main
  | irq (TmrCtrNumber : Nat) (expired : Bool)
  deriving DecidableEq, Repr

/-- One step of the program. The handler "runs to completion before
returning control" (section 5 of the specification), so an interrupt is one
step; it is dispatched only while the interrupt mode option of the channel
is set. `none` when the step cannot be taken. -/
def step (cfg : Config) (env : Env) : Tick → State → Option State
  | .main, s => main cfg env s
  | .irq n e, s =>
      if intMode (s.hw.chan n).options then some (TimerCounterHandler n e s) else none

/-- One tick of a schedule: the step when it can be taken; a tick that cannot
(an interrupt while the interrupt mode option is off, the main line after
`main` has returned) leaves the state as it is. -/
def next (cfg : Config) (env : Env) (t : Tick) (s : State) : State :=
  (step cfg env t s).getD s

/-- Run a schedule, an arbitrary interleaving of main line statements and
interrupts. -/
def run (cfg : Config) (env : Env) : List Tick → State → State
  | [], s => s
  | t :: ts, s => run cfg env ts (next cfg env t s)

/-- The program at the entry of `main`: `TimerExpired` is a static variable
(zero), `LastTimerExpired` has its initial value 0 (line 189), the devices
are at power-on and nothing has been called. -/
def State.init : State where
  pc := .tmrInit
  LastTimerExpired := 0
  TimerExpired := 0
  hw := Hw.reset
  trace := []

/-- The calls of one context in the log, in order. -/
def callsOf (ctx : Ctx) (tr : List Ev) : List Call :=
  (tr.filter (fun e => e.ctx = ctx)).map Ev.call

/-- The driver calls of the bring-up on the path where every step succeeds,
in program order: `TmrCtrIntrExample` lines 197-263 with
`TmrCtrSetupIntrSystem` lines 419-468 in the place of its call. -/
def bringUp (cfg : Config) : List Call :=
  [ .XTmrCtr_Initialize cfg.DeviceId,
    .XTmrCtr_SelfTest TIMER_CNTR_0,
    .XScuGic_LookupConfig cfg.INTC_DEVICE_ID,
    .XScuGic_CfgInitialize,
    .XScuGic_SetPriorityTriggerType cfg.IntrId 0xA0 0x3,
    .XScuGic_Connect cfg.IntrId,
    .XScuGic_Enable cfg.IntrId,
    .Xil_ExceptionInit,
    .Xil_ExceptionRegisterHandler,
    .Xil_ExceptionEnable,
    .XTmrCtr_SetHandler,
    .XTmrCtr_SetOptions TIMER_CNTR_0 (XTC_INT_MODE_OPTION ||| XTC_AUTO_RELOAD_OPTION),
    .XTmrCtr_SetResetValue TIMER_CNTR_0 RESET_VALUE,
    .XTmrCtr_Start TIMER_CNTR_0 ]

/-- The driver calls after the consumer loop: `XTmrCtr_Stop` (line 282) and
`TmrCtrDisableIntr` (lines 504-505). -/
def tearDown (cfg : Config) : List Call :=
  [ .XTmrCtr_Stop TIMER_CNTR_0, .XScuGic_Disable cfg.IntrId, .XScuGic_Disconnect cfg.IntrId ]

/-- Every fallible bring-up step reports success. -/
def Env.allOk (env : Env) : Prop :=
  env.tmrInit = XST_SUCCESS ∧ env.selfTest = XST_SUCCESS ∧ env.lookupFound = true ∧
    env.cfgInit = XST_SUCCESS ∧ env.connect = XST_SUCCESS

instance (env : Env) : Decidable env.allOk := by
  unfold Env.allOk
  infer_instance

/-- The main line's calls of a run that stops at the first failing bring-up
step, that step's call last; `none` when no step fails. -/
def failedCalls (cfg : Config) (env : Env) : Option (List Call) :=
  if env.tmrInit ≠ XST_SUCCESS then some ((bringUp cfg).take 1)
  else if env.selfTest ≠ XST_SUCCESS then some ((bringUp cfg).take 2)
  else if env.lookupFound = false then some ((bringUp cfg).take 3)
  else if env.cfgInit ≠ XST_SUCCESS then some ((bringUp cfg).take 4)
  else if env.connect ≠ XST_SUCCESS then some ((bringUp cfg).take 6)
  else none

/-- A state some schedule reaches from the entry of `main`. -/
def Reachable (cfg : Config) (env : Env) (s : State) : Prop :=
  ∃ ticks : List Tick, run cfg env ticks State.init = s

/-! ## Invariants of the two contexts together -/

/-- What the main line has called when it stands at a program point, and
which bring-up steps have then succeeded. -/
def MainInv (cfg : Config) (env : Env) (s : State) : Prop :=
  match s.pc with
  | .tmrInit => callsOf .main s.trace = []
  | .selfTest => env.tmrInit = XST_SUCCESS ∧ callsOf .main s.trace = (bringUp cfg).take 1
  | .gicLookup =>
      env.tmrInit = XST_SUCCESS ∧ env.selfTest = XST_SUCCESS ∧
        callsOf .main s.trace = (bringUp cfg).take 2
  | .gicCfgInit =>
      env.tmrInit = XST_SUCCESS ∧ env.selfTest = XST_SUCCESS ∧ env.lookupFound = true ∧
        callsOf .main s.trace = (bringUp cfg).take 3
  | .gicSetPriority =>
      env.tmrInit = XST_SUCCESS ∧ env.selfTest = XST_SUCCESS ∧ env.lookupFound = true ∧
        env.cfgInit = XST_SUCCESS ∧ callsOf .main s.trace = (bringUp cfg).take 4
  | .gicConnect =>
      env.tmrInit = XST_SUCCESS ∧ env.selfTest = XST_SUCCESS ∧ env.lookupFound = true ∧
        env.cfgInit = XST_SUCCESS ∧ callsOf .main s.trace = (bringUp cfg).take 5
  | .gicEnable => env.allOk ∧ callsOf .main s.trace = (bringUp cfg).take 6
  | .excInit => env.allOk ∧ callsOf .main s.trace = (bringUp cfg).take 7
  | .excRegister => env.allOk ∧ callsOf .main s.trace = (bringUp cfg).take 8
  | .excEnable => env.allOk ∧ callsOf .main s.trace = (bringUp cfg).take 9
  | .setupReturned st =>
      (st = XST_SUCCESS ∧ env.allOk ∧ callsOf .main s.trace = (bringUp cfg).take 10) ∨
      (st ≠ XST_SUCCESS ∧ env.tmrInit = XST_SUCCESS ∧ env.selfTest = XST_SUCCESS ∧
        failedCalls cfg env = some (callsOf .main s.trace))
  | .setHandler => env.allOk ∧ callsOf .main s.trace = (bringUp cfg).take 10
  | .setOptions => env.allOk ∧ callsOf .main s.trace = (bringUp cfg).take 11
  | .setResetValue => env.allOk ∧ callsOf .main s.trace = (bringUp cfg).take 12
  | .start => env.allOk ∧ callsOf .main s.trace = (bringUp cfg).take 13
  | .resetExpired => env.allOk ∧ callsOf .main s.trace = bringUp cfg
  | .waitLoop => env.allOk ∧ callsOf .main s.trace = bringUp cfg
  | .latch => env.allOk ∧ callsOf .main s.trace = bringUp cfg
  | .boundCheck => env.allOk ∧ callsOf .main s.trace = bringUp cfg
  | .stop => env.allOk ∧ callsOf .main s.trace = bringUp cfg
  | .gicDisable => env.allOk ∧ callsOf .main s.trace = bringUp cfg ++ (tearDown cfg).take 1
  | .gicDisconnect => env.allOk ∧ callsOf .main s.trace = bringUp cfg ++ (tearDown cfg).take 2
  | .exampleReturn => env.allOk ∧ callsOf .main s.trace = bringUp cfg ++ tearDown cfg
  | .mainCheck st =>
      (st = XST_SUCCESS ∧ env.allOk ∧ callsOf .main s.trace = bringUp cfg ++ tearDown cfg) ∨
      (st = XST_FAILURE ∧ failedCalls cfg env = some (callsOf .main s.trace))
  | .exited st =>
      (st = XST_SUCCESS ∧ env.allOk ∧
        callsOf .main s.trace = bringUp cfg ++ tearDown cfg ++
          [.xil_printf "Successfully ran Tmrctr interrupt Example\r\n" []]) ∨
      (st = XST_FAILURE ∧ ∃ l, failedCalls cfg env = some l ∧
        callsOf .main s.trace = l ++ [.xil_printf "Tmrctr interrupt Example Failed\r\n" []])

/-- Program points at which the timer's interrupt mode has not been programmed
yet (before line 249 has run), or `main` is leaving after a failed bring-up. -/
def Pc.unarmed : Pc → Bool
  | .tmrInit | .selfTest | .gicLookup | .gicCfgInit | .gicSetPriority | .gicConnect
  | .gicEnable | .excInit | .excRegister | .excEnable | .setupReturned _ | .setHandler
  | .setOptions => true
  | .mainCheck st => decide (st ≠ XST_SUCCESS)
  | .exited st => decide (st ≠ XST_SUCCESS)
  | _ => false

/-- The three phases of the timer channel: not yet armed (nothing has
happened in interrupt context), armed (interrupt mode on, fewer than 10
expiries counted), disarmed by the handler. -/
def Phase (s : State) : Prop :=
  (s.pc.unarmed = true ∧ (s.hw.chan 0).options = 0 ∧ s.TimerExpired = 0 ∧
    s.LastTimerExpired = 0 ∧ callsOf .isr s.trace = []) ∨
  (s.pc.unarmed = false ∧ (s.hw.chan 0).options = 12 ∧ s.TimerExpired < 10) ∨
  (s.pc.unarmed = false ∧ (s.hw.chan 0).options = 0 ∧
    (⟨.isr, .XTmrCtr_SetOptions 0 0⟩ : Ev) ∈ s.trace)

/-- What the consumer's variables satisfy at a program point. -/
def LoopInv (s : State) : Prop :=
  match s.pc with
  | .setResetValue => s.LastTimerExpired = 0
  | .start => s.LastTimerExpired = 0
  | .resetExpired => s.LastTimerExpired = 0
  | .waitLoop =>
      0 ≤ s.LastTimerExpired ∧ s.LastTimerExpired ≤ s.TimerExpired ∧ s.LastTimerExpired < 10
  | .latch => 0 ≤ s.LastTimerExpired ∧ s.LastTimerExpired < s.TimerExpired
  | .boundCheck => 0 ≤ s.LastTimerExpired ∧ s.LastTimerExpired ≤ s.TimerExpired
  | .stop => s.TimerExpired = 10
  | .gicDisable => s.TimerExpired = 10
  | .gicDisconnect => s.TimerExpired = 10
  | .exampleReturn => s.TimerExpired = 10
  | .mainCheck st => st = XST_SUCCESS → s.TimerExpired = 10
  | .exited st => st = XST_SUCCESS → s.TimerExpired = 10
  | _ => True

/-- The invariant of the two contexts together: only channel 0 is ever
configured, `TimerExpired` stays between 0 and 10, and the channel is in
one of its three phases. -/
def CoreInv (s : State) : Prop :=
  (∀ n, n ≠ 0 → (s.hw.chan n).options = 0) ∧
  0 ≤ s.TimerExpired ∧ s.TimerExpired ≤ 10 ∧ Phase s ∧ LoopInv s

/-- The invariant of the program: what the main line has called so far
(`MainInv`) and the state shared with the handler (`CoreInv`). -/
def Inv (cfg : Config) (env : Env) (s : State) : Prop := MainInv cfg env s ∧ CoreInv s

/-! ## Concrete runs -/

/-- A configuration for concrete runs. -/
def cfg0 : Config := { DeviceId := 0, IntrId := 121, INTC_DEVICE_ID := 0 }

/-- Every fallible driver call succeeds. -/
def envOk : Env :=
  { tmrInit := XST_SUCCESS, selfTest := XST_SUCCESS, lookupFound := true,
    cfgInit := XST_SUCCESS, connect := XST_SUCCESS }

/-- The main line alone from the entry of `main` to the consumer loop: the 15
statements of the bring-up and `TimerExpired = 0`. -/
def bringUpTicks : List Tick := List.replicate 16 Tick.main

/-- One round of the consumer loop with one expiry: the consumer evaluates
the waiting condition `spin` times, the timer expires on channel 0, and the
consumer leaves the wait, stores the new value and checks the bound. -/
def roundTicks (spin : Nat) : List Tick :=
  List.replicate spin Tick.main ++ [Tick.irq 0 true, Tick.main, Tick.main, Tick.main]

/-- The main line alone from `XTmrCtr_Stop` to the return of
`TmrCtrIntrExample`. -/
def finishTicks : List Tick := List.replicate 4 Tick.main

/-- The schedule of the end-to-end scenario: bring-up, one round for each
entry of `spins`, and the statements after the loop. -/
def e2eTicks (spins : List Nat) : List Tick :=
  bringUpTicks ++ (spins.map roundTicks).flatten ++ finishTicks

/-! ## After the bound -/

/-- The state of the concrete run after the tenth expiry has been counted and
the consumer has checked the bound. -/
def stateAtBound : State :=
  run cfg0 envOk (bringUpTicks ++ (List.replicate 10 (roundTicks 0)).flatten) State.init

/-! ## Monotonicity of the counter -/

/-- Program points of the successful path that come after `TimerExpired = 0`
(line 265) has run. -/
def Pc.resetDone : Pc → Bool
  | .waitLoop | .latch | .boundCheck | .stop | .gicDisable | .gicDisconnect
  | .exampleReturn => true
  | .mainCheck st => decide (st = XST_SUCCESS)
  | .exited st => decide (st = XST_SUCCESS)
  | _ => false

/-- The values of `TimerExpired` after each tick of a schedule. -/
def polls (cfg : Config) (env : Env) : List Tick → State → List Int
  | [], _ => []
  | t :: ts, s => (next cfg env t s).TimerExpired :: polls cfg env ts (next cfg env t s)

/-- The state of the concrete run right after `XTmrCtr_Start` has returned
(the 15 statements of the bring-up have run, `TimerExpired = 0` has not). -/
def stateStarted : State := run cfg0 envOk (List.replicate 15 Tick.main) State.init

/-! ## Failure of a bring-up step -/

/-- An upper bound on the number of statements the main line still runs from
a program point of the bring-up when a step fails. -/
def Pc.failRank : Pc → Nat
  | .tmrInit => 8
  | .selfTest => 7
  | .gicLookup => 6
  | .gicCfgInit => 5
  | .gicSetPriority => 4
  | .gicConnect => 3
  | .setupReturned _ => 2
  | .mainCheck _ => 1
  | _ => 0

/-- The diagnostic `main` prints when `TmrCtrIntrExample` fails (line 143). -/
def failedMessage : Call := .xil_printf "Tmrctr interrupt Example Failed\r\n" []

/-- An environment in which the timer self-test fails. -/
def envSelfTestFails : Env :=
  { tmrInit := XST_SUCCESS, selfTest := XST_FAILURE, lookupFound := true,
    cfgInit := XST_SUCCESS, connect := XST_SUCCESS }

/-! ## Order of the bring-up -/

/-- The message `main` prints when `TmrCtrIntrExample` succeeds (line 147). -/
def successMessage : Call := .xil_printf "Successfully ran Tmrctr interrupt Example\r\n" []

/-- The operations the bring-up sequence of the specification names (section
4.5), in its order: initialize timer, self-test, initialize controller,
connect handler to line, enable line, install dispatcher and enable
exceptions, configure timer options, set reload value, start timer. -/
def sequencerOrder (cfg : Config) : List Call :=
  [ .XTmrCtr_Initialize cfg.DeviceId,
    .XTmrCtr_SelfTest TIMER_CNTR_0,
    .XScuGic_LookupConfig cfg.INTC_DEVICE_ID,
    .XScuGic_CfgInitialize,
    .XScuGic_Connect cfg.IntrId,
    .XScuGic_Enable cfg.IntrId,
    .Xil_ExceptionInit,
    .Xil_ExceptionRegisterHandler,
    .Xil_ExceptionEnable,
    .XTmrCtr_SetOptions TIMER_CNTR_0 (XTC_INT_MODE_OPTION ||| XTC_AUTO_RELOAD_OPTION),
    .XTmrCtr_SetResetValue TIMER_CNTR_0 RESET_VALUE,
    .XTmrCtr_Start TIMER_CNTR_0 ]

/-- The bring-up calls that the specification's sequence does not name. -/
def unnamedBySequencer : Call → Bool
  | .XScuGic_SetPriorityTriggerType _ _ _ => true
  | .XTmrCtr_SetHandler => true
  | _ => false

/-! ## Installation of the dispatcher -/

/-- `SetupInterruptSystem` of `hello_world/src/helloworld.c` (lines 42-87):
the status it returns and the driver calls it makes, in order.
`TIMER_INT_ID` and `INTC_DEVICE_ID` come from `xparameters.h`. -/
def SetupInterruptSystem (TIMER_INT_ID INTC_DEVICE_ID : Nat) (env : Env) : Int × List Call :=
  let log := [Call.XScuGic_LookupConfig INTC_DEVICE_ID]
  if env.lookupFound = false then (XST_FAILURE, log)
  else
    let log := log ++ [Call.XScuGic_CfgInitialize]
    if env.cfgInit ≠ XST_SUCCESS then (XST_FAILURE, log)
    else
      let log := log ++ [Call.XScuGic_Connect TIMER_INT_ID]
      if env.connect ≠ XST_SUCCESS then (XST_FAILURE, log)
      else
        let log := log ++ [Call.XScuGic_Enable TIMER_INT_ID]
        let log := log ++ [Call.Xil_ExceptionInit]
        let log := log ++ [Call.Xil_ExceptionRegisterHandler]
        let log := log ++ [Call.Xil_ExceptionEnable]
        (XST_SUCCESS, log)

/-- The call enables an interrupt line. -/
def isEnableCall : Call → Bool
  | .XScuGic_Enable _ => true
  | _ => false

/-- The call belongs to the installation of the dispatcher. -/
def isDispatcherCall : Call → Bool
  | .Xil_ExceptionInit => true
  | .Xil_ExceptionRegisterHandler => true
  | .Xil_ExceptionEnable => true
  | _ => false

/-- No call of the dispatcher installation comes after the first
`XScuGic_Enable` of a sequence of calls. -/
def dispatcherBeforeEnable (l : List Call) : Bool :=
  (l.dropWhile (fun c => !isEnableCall c)).all (fun c => !isDispatcherCall c)

/-- The state of the concrete run when `TmrCtrSetupIntrSystem` has
returned. -/
def stateSetupDone : State := run cfg0 envOk (List.replicate 10 Tick.main) State.init

/-! ## The end-to-end scenario -/

/-- The values the consumer loop stores in `LastTimerExpired` (line 274)
along a schedule, in order. -/
def stored (cfg : Config) (env : Env) : List Tick → State → List Int
  | [], _ => []
  | t :: ts, s =>
      (if t = Tick.main ∧ s.pc = Pc.latch then [(next cfg env t s).LastTimerExpired] else []) ++
        stored cfg env ts (next cfg env t s)

/-- The consumer stands at the wait with `i` expiries counted and observed,
and the timer channel armed. -/
def AtWait (i : Int) (s : State) : Prop :=
  s.pc = .waitLoop ∧ s.TimerExpired = i ∧ s.LastTimerExpired = i ∧ (s.hw.chan 0).options = 12

/-! ## Several expiries between two reads of the consumer -/

/-- The schedule in which the timer expires once for each entry of `ns`, on
the channel the entry names, with no statement of the main line in between. -/
def fires (ns : List Nat) : List Tick := ns.map (fun n => Tick.irq n true)

/-- Every tick of the schedule is a step the program takes: each interrupt
is dispatched (the interrupt mode option of its channel is set at that
moment) and the main line has not returned. -/
def taken (cfg : Config) (env : Env) : List Tick → State → Bool
  | [], _ => true
  | t :: ts, s => (step cfg env t s).isSome && taken cfg env ts (next cfg env t s)

/-! ## The outcome of a failed bring-up -/

/-- The fallible steps of the bring-up of main.c, in program order. -/
inductive BringUpStep where
  | tmrInit
  | selfTest
  | lookup
  | cfgInit
  | connect
  deriving DecidableEq, Repr

/-- The first step of the bring-up that fails in an environment; `none` when
every step succeeds. -/
def firstFailure (env : Env) : Option BringUpStep :=
  if env.tmrInit ≠ XST_SUCCESS then some .tmrInit
  else if env.selfTest ≠ XST_SUCCESS then some .selfTest
  else if env.lookupFound = false then some .lookup
  else if env.cfgInit ≠ XST_SUCCESS then some .cfgInit
  else if env.connect ≠ XST_SUCCESS then some .connect
  else none

/-- The diagnostic text among a list of calls: the format and the arguments
of each `xil_printf`, in order. -/
def printedCalls (calls : List Call) : List (String × List Int) :=
  calls.filterMap (fun c =>
    match c with
    | .xil_printf fmt args => some (fmt, args)
    | _ => none)

/-- The diagnostic text the program has written, by either context. -/
def printed (tr : List Ev) : List (String × List Int) := printedCalls (tr.map Ev.call)

/-- The observable outcome of `main`: the status it has returned (`none` as
long as it has not returned) and the diagnostic text written. -/
def outcome (s : State) : Option Int × List (String × List Int) :=
  (match s.pc with
    | .exited st => some st
    | _ => none,
   printed s.trace)

/-- An environment in which the timer initialization fails. -/
def envTmrInitFails : Env :=
  { tmrInit := XST_FAILURE, selfTest := XST_SUCCESS, lookupFound := true,
    cfgInit := XST_SUCCESS, connect := XST_SUCCESS }

/-! ## Timer periods -/

/-- The tick frequency of the timer, 100 MHz, as the source states it
(hello_world2 lines 26-28, hello_world/helloworld.c lines 122-123). -/
def TICK_FREQUENCY_HZ : Nat := 100000000

/-- Modelled from the spec: the period that the reload value defines
(`setReloadValue` of section 4.1), in clock ticks from one expiry of an
auto-reloading channel to the next. The counter is hardware; no code of the
repository computes the period. The counting rule is the one the comments of
the source give: the counter is loaded with the reset value and counts up
until the 32-bit counter rolls over (main.c lines 64-68 and 252-255), or, with
`XTC_DOWN_COUNT_OPTION`, counts down from the reset value (hello_world2 lines
26-29 and 137). -/
def ticksPerExpiry (c : TimerChannel) : Nat :=
  if c.options &&& XTC_DOWN_COUNT_OPTION ≠ 0 then c.resetValue else 2 ^ 32 - c.resetValue

/-- `#define TIMER_DEVICE_ID 0` (hello_world/helloworld.c line 18). -/
def HelloWorld.TIMER_DEVICE_ID : Nat := 0

/-- `main` of `hello_world/src/helloworld.c` (lines 92-146): the status it
returns and the calls it makes, in order; the status is `none` when it enters
the idle loop `while (1)` of line 143, which it never leaves. `TIMER_INT_ID`
and `INTC_DEVICE_ID` come from `xparameters.h`. -/
def HelloWorld.main (TIMER_INT_ID INTC_DEVICE_ID : Nat) (env : Env) : Option Int × List Call :=
  let log := [Call.xil_printf "\r\n" []]
  let log := log ++ [Call.xil_printf "AXI TIMER INTERRUPT DEMO - ZUBoard 1CG\r\n" []]
  let log := log ++ [Call.XTmrCtr_Initialize HelloWorld.TIMER_DEVICE_ID]
  if env.tmrInit ≠ XST_SUCCESS then
    (some XST_FAILURE, log ++ [Call.xil_printf "Timer initialization failed\r\n" []])
  else
    let log := log ++ [Call.XTmrCtr_SetHandler]
    let log := log ++ [Call.xil_printf "Timer handler registered\r\n" []]
    let log := log ++
      [Call.XTmrCtr_SetOptions 0 (XTC_INT_MODE_OPTION ||| XTC_AUTO_RELOAD_OPTION)]
    let log := log ++ [Call.xil_printf "Timer options configured\r\n" []]
    let log := log ++ [Call.XTmrCtr_SetResetValue 0 100000000]
    let log := log ++
      [Call.xil_printf "Timer reset value set to 100M (1 sec @ 100 MHz)\r\n" []]
    let setup := SetupInterruptSystem TIMER_INT_ID INTC_DEVICE_ID env
    let log := log ++ setup.2
    if setup.1 ≠ XST_SUCCESS then
      (some XST_FAILURE, log ++ [Call.xil_printf "Interrupt system setup failed\r\n" []])
    else
      let log := log ++ [Call.xil_printf "Interrupt system configured successfully\r\n" []]
      let log := log ++ [Call.XTmrCtr_Start 0]
      let log := log ++ [Call.xil_printf "Timer started - waiting for interrupts...\r\n" []]
      (none, log)

/-- `#define RESET_VALUE 100000000U` (hello_world2/helloworld.c line 29). -/
def HelloWorld2.RESET_VALUE : Nat := 100000000

/-- The option word `main` of hello_world2/helloworld.c programs (lines
139-140): `XTC_INT_MODE_OPTION | XTC_AUTO_RELOAD_OPTION |
XTC_DOWN_COUNT_OPTION`. -/
def HelloWorld2.timerOptions : Nat :=
  XTC_INT_MODE_OPTION ||| XTC_AUTO_RELOAD_OPTION ||| XTC_DOWN_COUNT_OPTION

/-! ## Order of the two contexts at the end of the sequence -/

/-- A call of `XTmrCtr_Stop`, by either context and on any channel. -/
def isStop (e : Ev) : Bool :=
  match e.call with
  | .XTmrCtr_Stop _ => true
  | _ => false

/-- In a log, the event `a` occurs before the first event that satisfies `b`
(or no event satisfies `b`). -/
def precedes (a : Ev) (b : Ev → Bool) : List Ev → Bool
  | [] => true
  | e :: tr => if e = a then true else if b e then false else precedes a b tr

/-- In a log, no call is made in interrupt context after the first event that
satisfies `b`. -/
def quietAfter (b : Ev → Bool) : List Ev → Bool
  | [] => true
  | e :: tr => if b e then tr.all (fun x => decide (x.ctx = Ctx.main)) else quietAfter b tr

/-- The order of the two contexts in the log of a state: once `XTmrCtr_Stop`
has been called the interrupt mode of every channel is off, the handler's
`XTmrCtr_SetOptions(channel 0, 0)` is in the log before the first
`XTmrCtr_Stop`, and nothing is logged in interrupt context after it. -/
def OrderInv (s : State) : Prop :=
  (s.trace.any isStop = true → (∀ n, (s.hw.chan n).options = 0) ∧ s.pc.unarmed = false) ∧
  precedes ⟨.isr, .XTmrCtr_SetOptions 0 0⟩ isStop s.trace = true ∧
  quietAfter isStop s.trace = true

/-- The state of the concrete run of ten rounds after `TmrCtrIntrExample` has
returned. -/
def stateStopped : State := run cfg0 envOk (e2eTicks (List.replicate 10 0)) State.init

/-! # Theorems -/

/-! ## The handler alone -/

theorem wrapInt32_eq (x : Int) (h1 : -2147483648 ≤ x) (h2 : x < 2147483648) :
    wrapInt32 x = x := by
  unfold wrapInt32
  omega

theorem handler_expired_TimerExpired (n : Nat) (s : State) :
    (TimerCounterHandler n true s).TimerExpired = wrapInt32 (s.TimerExpired + 1) := by
  simp only [TimerCounterHandler, State.log, State.call]
  split_ifs <;> rfl

theorem handler_idle (n : Nat) (s : State) :
    TimerCounterHandler n false s = s.log .isr (.XTmrCtr_IsExpired n) := by
  simp [TimerCounterHandler]

theorem handler_pc (n : Nat) (e : Bool) (s : State) :
    (TimerCounterHandler n e s).pc = s.pc := by
  simp only [TimerCounterHandler, State.log, State.call]
  split_ifs <;> rfl

theorem handler_LastTimerExpired (n : Nat) (e : Bool) (s : State) :
    (TimerCounterHandler n e s).LastTimerExpired = s.LastTimerExpired := by
  simp only [TimerCounterHandler, State.log, State.call]
  split_ifs <;> rfl

theorem handler_mainCalls (n : Nat) (e : Bool) (s : State) :
    callsOf .main (TimerCounterHandler n e s).trace = callsOf .main s.trace := by
  simp only [TimerCounterHandler, State.log, State.call, callsOf]
  split_ifs <;> simp [List.filter_append, List.filter_cons]

theorem handler_iterate (n : Nat) (s : State) (h0 : s.TimerExpired = 0) :
    ∀ k : Nat, k < 2 ^ 31 →
      (Nat.iterate (TimerCounterHandler n true) k s).TimerExpired = (k : Int) := by
  intro k
  induction k with
  | zero => intro _; simpa using h0
  | succ k ih =>
      intro hk
      have hk' : k < 2 ^ 31 := by omega
      rw [Function.iterate_succ_apply', handler_expired_TimerExpired, ih hk']
      rw [wrapInt32_eq] <;> push_cast <;> omega

/-- C1: starting from `TimerExpired = 0`, `N < 2^31` invocations of
`TimerCounterHandler` in which `XTmrCtr_IsExpired` returns true leave
`TimerExpired = N`, every one of them raising it by exactly 1 (after `k + 1`
invocations it is one more than after `k`); an invocation in which
`XTmrCtr_IsExpired` returns false leaves `TimerExpired` as it is. -/
theorem C1_handler_counts (n : Nat) (s : State) (N : Nat) (hN : N < 2 ^ 31)
    (h0 : s.TimerExpired = 0) :
    (Nat.iterate (TimerCounterHandler n true) N s).TimerExpired = (N : Int) ∧
    (∀ k : Nat, k < N →
      (Nat.iterate (TimerCounterHandler n true) (k + 1) s).TimerExpired =
        (Nat.iterate (TimerCounterHandler n true) k s).TimerExpired + 1) ∧
    (∀ (m : Nat) (t : State), (TimerCounterHandler m false t).TimerExpired = t.TimerExpired) := by
  refine ⟨handler_iterate n s h0 N hN, ?_, ?_⟩
  · intro k hk
    rw [handler_iterate n s h0 (k + 1) (by omega), handler_iterate n s h0 k (by omega)]
    push_cast
    rfl
  · intro m t
    rw [handler_idle]
    rfl

/-- C1 at a concrete input: three expiries on channel 0 from the initial
state. -/
theorem C1_handler_counts_witness :
    (3 : Nat) < 2 ^ 31 ∧ State.init.TimerExpired = 0 ∧
    (Nat.iterate (TimerCounterHandler 0 true) 3 State.init).TimerExpired = 3 :=
  ⟨by decide, rfl, (C1_handler_counts 0 State.init 3 (by decide) rfl).1⟩

/-- C2: the handler's calls are `XTmrCtr_IsExpired`, then when expiry is
reported `xil_printf`, then `XTmrCtr_SetOptions(channel, 0)` exactly when
expiry was reported and `TimerExpired` after the increment is at least 10;
that reconfiguration is its only effect on the devices (in the data model of
the specification, where configuring is an update of the mode flags), and
after it the interrupt mode flag of the channel is off. The running state and
the reload value of every channel, the other channels, the interrupt lines
and the exception table are as before, and so are the main line's program
point and `LastTimerExpired`. -/
theorem C2_handler_frame (n : Nat) (e : Bool) (s : State) :
    (TimerCounterHandler n e s).trace =
      s.trace ++ (⟨.isr, .XTmrCtr_IsExpired n⟩ ::
        (if e = true then
          ⟨.isr, .xil_printf "IRQ %d\r\n" [(TimerCounterHandler n e s).TimerExpired]⟩ ::
            (if 10 ≤ (TimerCounterHandler n e s).TimerExpired then
              [⟨.isr, .XTmrCtr_SetOptions n 0⟩] else [])
         else [])) ∧
    (TimerCounterHandler n e s).hw =
      (if e = true ∧ 10 ≤ (TimerCounterHandler n e s).TimerExpired then
        s.hw.apply (.XTmrCtr_SetOptions n 0) else s.hw) ∧
    (e = true ∧ 10 ≤ (TimerCounterHandler n e s).TimerExpired →
      ((TimerCounterHandler n e s).hw.chan n).options = 0 ∧
      intMode ((TimerCounterHandler n e s).hw.chan n).options = false) ∧
    (∀ m, ((TimerCounterHandler n e s).hw.chan m).running = (s.hw.chan m).running ∧
      ((TimerCounterHandler n e s).hw.chan m).resetValue = (s.hw.chan m).resetValue) ∧
    (∀ m, m ≠ n → (TimerCounterHandler n e s).hw.chan m = s.hw.chan m) ∧
    (TimerCounterHandler n e s).hw.line = s.hw.line ∧
    (TimerCounterHandler n e s).hw.dispatcherInstalled = s.hw.dispatcherInstalled ∧
    (TimerCounterHandler n e s).hw.exceptionsEnabled = s.hw.exceptionsEnabled ∧
    (TimerCounterHandler n e s).pc = s.pc ∧
    (TimerCounterHandler n e s).LastTimerExpired = s.LastTimerExpired := by
  cases e
  · simp [TimerCounterHandler, State.log]
  · by_cases h : 10 ≤ wrapInt32 (s.TimerExpired + 1)
    · simp [TimerCounterHandler, State.log, State.call, Hw.apply, h, intMode]
      refine ⟨fun m => ?_, fun m h1 h2 => absurd h2 h1⟩
      split_ifs <;> simp
    · simp [TimerCounterHandler, State.log, State.call, h]

/-! ## Invariants of the two contexts together -/

theorem callsOf_append (ctx : Ctx) (tr : List Ev) (e : Ev) :
    callsOf ctx (tr ++ [e]) = callsOf ctx tr ++ (if e.ctx = ctx then [e.call] else []) := by
  unfold callsOf
  by_cases h : e.ctx = ctx <;> simp [List.filter_append, List.filter_cons, h]

theorem optionWord : XTC_INT_MODE_OPTION ||| XTC_AUTO_RELOAD_OPTION = 12 := by decide

theorem XST_FAILURE_ne_SUCCESS : XST_FAILURE ≠ XST_SUCCESS := by decide

theorem XST_SUCCESS_ne_FAILURE : XST_SUCCESS ≠ XST_FAILURE := by decide

theorem intMode_zero : intMode 0 = false := by decide

theorem intMode_twelve : intMode 12 = true := by decide

theorem MainInv_init (cfg : Config) (env : Env) : MainInv cfg env State.init := by
  simp [MainInv, State.init, callsOf]

theorem MainInv_handler (cfg : Config) (env : Env) (n : Nat) (e : Bool) (s : State)
    (h : MainInv cfg env s) : MainInv cfg env (TimerCounterHandler n e s) := by
  unfold MainInv at h ⊢
  rw [handler_pc, handler_mainCalls]
  exact h

theorem MainInv_main (cfg : Config) (env : Env) (s s' : State)
    (h : MainInv cfg env s) (hs : main cfg env s = some s') : MainInv cfg env s' := by
  rcases s with ⟨pc, last, te, hw, tr⟩
  cases pc <;> simp only [main, TmrCtrIntrExample, TmrCtrSetupIntrSystem,
    TmrCtrDisableIntr] at hs <;> (try split_ifs at hs) <;>
    simp only [Option.some.injEq, reduceCtorEq] at hs <;> subst hs <;>
    simp only [MainInv, State.goto, State.log, State.call, callsOf_append, if_true, Env.allOk,
      failedCalls] at h ⊢ <;>
    simp_all [bringUp, tearDown, XST_FAILURE_ne_SUCCESS, XST_SUCCESS_ne_FAILURE]
  obtain ⟨h1, h2, h3⟩ := h
  rw [if_pos h1, if_pos h2] at h3
  exact h3

theorem CoreInv_init : CoreInv State.init := by
  simp [CoreInv, Phase, LoopInv, State.init, Hw.reset, Pc.unarmed, callsOf]

theorem CoreInv_main (cfg : Config) (env : Env) (s s' : State)
    (h : CoreInv s) (hs : main cfg env s = some s') : CoreInv s' := by
  rcases s with ⟨pc, last, te, hw, tr⟩
  obtain ⟨hn, h0, h10, hph, hl⟩ := h
  cases pc <;> simp only [main, TmrCtrIntrExample, TmrCtrSetupIntrSystem,
    TmrCtrDisableIntr] at hs <;> (try split_ifs at hs) <;>
    simp only [Option.some.injEq, reduceCtorEq] at hs <;> subst hs <;>
    simp only [CoreInv, Phase, LoopInv, State.goto, State.log, State.call, callsOf_append,
      Hw.apply, Pc.unarmed, TIMER_CNTR_0, optionWord] at hn h0 h10 hph hl ⊢ <;>
    simp_all [XST_FAILURE_ne_SUCCESS, XST_SUCCESS_ne_FAILURE]
  · tauto
  · omega
  · omega

theorem gate_open (n : Nat) (s : State) (h : CoreInv s)
    (hg : intMode (s.hw.chan n).options = true) :
    n = 0 ∧ s.pc.unarmed = false ∧ (s.hw.chan 0).options = 12 ∧ s.TimerExpired < 10 := by
  obtain ⟨hn, -, -, hph, -⟩ := h
  have h0 : n = 0 := by
    by_contra hne
    rw [hn n hne, intMode_zero] at hg
    exact Bool.false_ne_true hg
  subst h0
  rcases hph with ⟨-, ho, -⟩ | ⟨hu, ho, ht⟩ | ⟨-, ho, -⟩
  · rw [ho, intMode_zero] at hg
    exact absurd hg Bool.false_ne_true
  · exact ⟨rfl, hu, ho, ht⟩
  · rw [ho, intMode_zero] at hg
    exact absurd hg Bool.false_ne_true

theorem CoreInv_handler (n : Nat) (e : Bool) (s : State) (h : CoreInv s)
    (hg : intMode (s.hw.chan n).options = true) : CoreInv (TimerCounterHandler n e s) := by
  obtain ⟨rfl, hu, ho, ht⟩ := gate_open n s h hg
  obtain ⟨hn, h0, h10, -, hl⟩ := h
  have hwrap : wrapInt32 (s.TimerExpired + 1) = s.TimerExpired + 1 :=
    wrapInt32_eq _ (by omega) (by omega)
  rcases s with ⟨pc, last, te, dev, tr⟩
  dsimp only at hu ho ht hn h0 h10 hl hwrap
  cases e
  · rw [handler_idle]
    refine ⟨hn, h0, h10, Or.inr (Or.inl ⟨hu, ho, ht⟩), hl⟩
  · simp only [TimerCounterHandler, State.log, State.call, Hw.apply, if_true, hwrap]
    split_ifs with hb
    · refine ⟨?_, by dsimp only; omega, by dsimp only; omega,
        Or.inr (Or.inr ⟨hu, by simp, by simp⟩), ?_⟩
      · intro m hm
        simpa [hm] using hn m hm
      · cases pc <;> simp_all [LoopInv, Pc.unarmed] <;> omega
    · refine ⟨hn, by dsimp only; omega, by dsimp only; omega,
        Or.inr (Or.inl ⟨hu, ho, by dsimp only; omega⟩), ?_⟩
      cases pc <;> simp_all [LoopInv, Pc.unarmed] <;> omega

theorem Inv_next (cfg : Config) (env : Env) (t : Tick) (s : State) (h : Inv cfg env s) :
    Inv cfg env (next cfg env t s) := by
  unfold next
  cases t with
  | main =>
      cases hs : main cfg env s with
      | none => simpa [step, hs] using h
      | some s' =>
          simp only [step, hs, Option.getD_some]
          exact ⟨MainInv_main cfg env s s' h.1 hs, CoreInv_main cfg env s s' h.2 hs⟩
  | irq n e =>
      by_cases hg : intMode (s.hw.chan n).options = true
      · simp only [step, hg, if_true, Option.getD_some]
        exact ⟨MainInv_handler cfg env n e s h.1, CoreInv_handler n e s h.2 hg⟩
      · simpa [step, hg] using h

theorem Inv_run (cfg : Config) (env : Env) (ticks : List Tick) :
    ∀ s : State, Inv cfg env s → Inv cfg env (run cfg env ticks s) := by
  induction ticks with
  | nil => intro s h; exact h
  | cons t ts ih => intro s h; exact ih _ (Inv_next cfg env t s h)

theorem Inv_reachable (cfg : Config) (env : Env) (s : State) (h : Reachable cfg env s) :
    Inv cfg env s := by
  obtain ⟨ticks, rfl⟩ := h
  exact Inv_run cfg env ticks _ ⟨MainInv_init cfg env, CoreInv_init⟩

theorem run_append (cfg : Config) (env : Env) (t1 t2 : List Tick) :
    ∀ s : State, run cfg env (t1 ++ t2) s = run cfg env t2 (run cfg env t1 s) := by
  induction t1 with
  | nil => intro s; rfl
  | cons t ts ih => intro s; exact ih _

theorem Reachable_run (cfg : Config) (env : Env) (s : State) (ticks : List Tick)
    (h : Reachable cfg env s) : Reachable cfg env (run cfg env ticks s) := by
  obtain ⟨t0, rfl⟩ := h
  exact ⟨t0 ++ ticks, run_append cfg env t0 ticks _⟩

/-! ## The consumer loop's exit -/

/-- C3: in every execution in which the bring-up succeeds and
`TmrCtrIntrExample` returns, it returns `XST_SUCCESS` and the main line has
called, after the bring-up, `XTmrCtr_Stop`, then `XScuGic_Disable`, then
`XScuGic_Disconnect`, each exactly once; a bound check that reads a value of
`TimerExpired` other than 10 goes back to the wait without any call. -/
theorem C3_stop_then_disconnect (cfg : Config) (env : Env) (s : State) (st : Int)
    (hr : Reachable cfg env s) (hok : env.allOk) (hpc : s.pc = .mainCheck st) :
    st = XST_SUCCESS ∧
    callsOf .main s.trace =
      bringUp cfg ++ [.XTmrCtr_Stop TIMER_CNTR_0, .XScuGic_Disable cfg.IntrId,
        .XScuGic_Disconnect cfg.IntrId] ∧
    (callsOf .main s.trace).count (.XTmrCtr_Stop TIMER_CNTR_0) = 1 ∧
    (callsOf .main s.trace).count (.XScuGic_Disable cfg.IntrId) = 1 ∧
    (callsOf .main s.trace).count (.XScuGic_Disconnect cfg.IntrId) = 1 ∧
    (∀ t : State, t.pc = .boundCheck → t.TimerExpired ≠ 10 →
      step cfg env .main t = some (t.goto .waitLoop)) := by
  have hinv := (Inv_reachable cfg env s hr).1
  unfold MainInv at hinv
  rw [hpc] at hinv
  have hnone : failedCalls cfg env = none := by
    obtain ⟨h1, h2, h3, h4, h5⟩ := hok
    simp [failedCalls, h1, h2, h3, h4, h5]
  rcases hinv with ⟨h1, -, h3⟩ | ⟨-, h2⟩
  · refine ⟨h1, h3, ?_, ?_, ?_, ?_⟩
    · rw [h3]; simp [bringUp, tearDown, List.count_cons]
    · rw [h3]; simp [bringUp, tearDown, List.count_cons]
    · rw [h3]; simp [bringUp, tearDown, List.count_cons]
    · intro t ht hne
      simp [step, main, TmrCtrIntrExample, TmrCtrSetupIntrSystem, TmrCtrDisableIntr, ht, hne]
  · rw [hnone] at h2
    exact absurd h2 (by simp)

set_option maxRecDepth 100000 in
/-- C3 at a concrete input: the run with ten expiries, one in each round of
the consumer loop. -/
theorem C3_stop_then_disconnect_witness :
    Reachable cfg0 envOk (run cfg0 envOk (e2eTicks (List.replicate 10 0)) State.init) ∧
    envOk.allOk ∧
    (run cfg0 envOk (e2eTicks (List.replicate 10 0)) State.init).pc = .mainCheck XST_SUCCESS ∧
    callsOf .main (run cfg0 envOk (e2eTicks (List.replicate 10 0)) State.init).trace =
      bringUp cfg0 ++ [.XTmrCtr_Stop TIMER_CNTR_0, .XScuGic_Disable cfg0.IntrId,
        .XScuGic_Disconnect cfg0.IntrId] :=
  ⟨⟨_, rfl⟩, by decide, by decide,
    (C3_stop_then_disconnect cfg0 envOk _ XST_SUCCESS ⟨_, rfl⟩ (by decide) (by decide)).2.1⟩

/-! ## After the bound -/

theorem disarmed_next (cfg : Config) (env : Env) (t : Tick) (s : State) (h : CoreInv s)
    (hz : ∀ n, (s.hw.chan n).options = 0) (hu : s.pc.unarmed = false) :
    (∀ n, ((next cfg env t s).hw.chan n).options = 0) ∧ (next cfg env t s).pc.unarmed = false ∧
      (next cfg env t s).TimerExpired ≤ s.TimerExpired := by
  obtain ⟨-, h0, -, -, -⟩ := h
  cases t with
  | irq n e =>
      have hg : intMode (s.hw.chan n).options = false := by rw [hz n, intMode_zero]
      simp only [next, step, hg, Bool.false_eq_true, if_false, Option.getD_none]
      exact ⟨hz, hu, le_refl _⟩
  | main =>
      rcases s with ⟨pc, last, te, dev, tr⟩
      cases pc <;> simp only [Pc.unarmed, reduceCtorEq] at hu <;>
        simp only [next, step, main, TmrCtrIntrExample, TmrCtrSetupIntrSystem,
          TmrCtrDisableIntr] <;> (try split_ifs) <;>
        simp_all [State.goto, State.log, State.call, Hw.apply, Pc.unarmed,
          XST_SUCCESS_ne_FAILURE, XST_FAILURE_ne_SUCCESS] <;>
        (try (intro n; split_ifs <;> simp_all))

theorem disarmed_run (cfg : Config) (env : Env) (ticks : List Tick) :
    ∀ s : State, Inv cfg env s → (∀ n, (s.hw.chan n).options = 0) → s.pc.unarmed = false →
      (run cfg env ticks s).TimerExpired ≤ s.TimerExpired := by
  induction ticks with
  | nil => intro s _ _ _; exact le_refl _
  | cons t ts ih =>
      intro s h hz hu
      obtain ⟨h1, h2, h3⟩ := disarmed_next cfg env t s h.2 hz hu
      exact le_trans (ih _ (Inv_next cfg env t s h) h1 h2) h3

theorem bound_reached (s : State) (h : CoreInv s) (h10 : 10 ≤ s.TimerExpired) :
    (∀ n, (s.hw.chan n).options = 0) ∧ s.pc.unarmed = false ∧
      (⟨.isr, .XTmrCtr_SetOptions 0 0⟩ : Ev) ∈ s.trace := by
  obtain ⟨hn, -, -, hph, -⟩ := h
  rcases hph with ⟨-, -, ht, -⟩ | ⟨-, -, ht⟩ | ⟨hu, ho, hm⟩
  · omega
  · omega
  · refine ⟨fun n => ?_, hu, hm⟩
    by_cases hn0 : n = 0
    · rw [hn0]; exact ho
    · exact hn n hn0

set_option maxRecDepth 100000 in
/-- C4 as stated fails: in the state the program reaches after ten expiries
(`TimerExpired = 10`), an invocation of `TimerCounterHandler` in which
`XTmrCtr_IsExpired` returns true raises `TimerExpired` to 11. -/
theorem C4_counterexample :
    10 ≤ stateAtBound.TimerExpired ∧
    (TimerCounterHandler 0 true stateAtBound).TimerExpired = 11 ∧
    (TimerCounterHandler 0 true stateAtBound).TimerExpired ≠ stateAtBound.TimerExpired := by
  decide

/-- C4 as amended: in every state the program reaches with `TimerExpired` at
10 or more, the handler has set the options of the channel to 0, the
interrupt mode of every channel is off, so no interrupt is dispatched, and no
later step of any schedule increases `TimerExpired`. The handler itself has no
guard: invoked with expiry reported at a value of 10 or more (below
`INT_MAX`) it raises `TimerExpired` by 1. -/
theorem C4_no_increment_after_bound (cfg : Config) (env : Env) (s : State)
    (hr : Reachable cfg env s) (h10 : 10 ≤ s.TimerExpired) :
    (⟨.isr, .XTmrCtr_SetOptions 0 0⟩ : Ev) ∈ s.trace ∧
    (∀ n, (s.hw.chan n).options = 0) ∧
    (∀ n e, step cfg env (.irq n e) s = none) ∧
    (∀ ticks, (run cfg env ticks s).TimerExpired ≤ s.TimerExpired) ∧
    (∀ (n : Nat) (t : State), 10 ≤ t.TimerExpired → t.TimerExpired < 2147483647 →
      (TimerCounterHandler n true t).TimerExpired = t.TimerExpired + 1) := by
  have hinv := Inv_reachable cfg env s hr
  obtain ⟨hz, hu, hm⟩ := bound_reached s hinv.2 h10
  refine ⟨hm, hz, ?_, ?_, ?_⟩
  · intro n e
    simp [step, hz n, intMode_zero]
  · intro ticks
    exact disarmed_run cfg env ticks s hinv hz hu
  · intro n t h1 h2
    rw [handler_expired_TimerExpired, wrapInt32_eq _ (by omega) (by omega)]

set_option maxRecDepth 100000 in
/-- C4 as amended at a concrete input: after the tenth expiry a further
interrupt on channel 0 is not dispatched. -/
theorem C4_no_increment_after_bound_witness :
    Reachable cfg0 envOk stateAtBound ∧ 10 ≤ stateAtBound.TimerExpired ∧
    step cfg0 envOk (.irq 0 true) stateAtBound = none :=
  ⟨⟨_, rfl⟩, by decide,
    (C4_no_increment_after_bound cfg0 envOk stateAtBound ⟨_, rfl⟩ (by decide)).2.2.1 0 true⟩

/-! ## Monotonicity of the counter -/

theorem resetDone_main (cfg : Config) (env : Env) (s : State) (hd : s.pc.resetDone = true) :
    (next cfg env .main s).pc.resetDone = true ∧
      (next cfg env .main s).TimerExpired = s.TimerExpired := by
  rcases s with ⟨pc, last, te, dev, tr⟩
  cases pc <;> simp only [Pc.resetDone, reduceCtorEq] at hd <;>
    simp only [next, step, main, TmrCtrIntrExample, TmrCtrSetupIntrSystem,
      TmrCtrDisableIntr] <;> (try split_ifs) <;>
    simp_all [State.goto, State.log, State.call, Pc.resetDone]

theorem irq_TimerExpired (cfg : Config) (env : Env) (n : Nat) (e : Bool) (s : State)
    (h : CoreInv s) :
    (next cfg env (.irq n e) s).pc = s.pc ∧
    ((next cfg env (.irq n e) s).TimerExpired = s.TimerExpired ∨
      (next cfg env (.irq n e) s).TimerExpired = s.TimerExpired + 1) := by
  by_cases hg : intMode (s.hw.chan n).options = true
  · obtain ⟨-, -, -, ht⟩ := gate_open n s h hg
    have h0 := h.2.1
    simp only [next, step, hg, if_true, Option.getD_some, handler_pc, true_and]
    cases e
    · left; rw [handler_idle]; rfl
    · right; rw [handler_expired_TimerExpired, wrapInt32_eq _ (by omega) (by omega)]
  · simp [next, step, hg]

theorem polls_chain (cfg : Config) (env : Env) (ticks : List Tick) :
    ∀ s : State, Inv cfg env s → s.pc.resetDone = true →
      List.Chain (· ≤ ·) s.TimerExpired (polls cfg env ticks s) ∧
      (run cfg env ticks s).pc.resetDone = true := by
  induction ticks with
  | nil => intro s _ hd; exact ⟨List.Chain.nil, hd⟩
  | cons t ts ih =>
      intro s h hd
      have hstep : (next cfg env t s).pc.resetDone = true ∧
          s.TimerExpired ≤ (next cfg env t s).TimerExpired := by
        cases t with
        | main =>
            obtain ⟨h1, h2⟩ := resetDone_main cfg env s hd
            exact ⟨h1, le_of_eq h2.symm⟩
        | irq n e =>
            obtain ⟨h1, h2⟩ := irq_TimerExpired cfg env n e s h.2
            refine ⟨by rw [h1]; exact hd, ?_⟩
            rcases h2 with h2 | h2 <;> omega
      obtain ⟨h3, h4⟩ := ih _ (Inv_next cfg env t s h) hstep.1
      exact ⟨List.Chain.cons hstep.2 h3, h4⟩

set_option maxRecDepth 100000 in
/-- C5 as stated fails: right after `XTmrCtr_Start` has returned, an expiry
is counted (`TimerExpired` goes from 0 to 1) and the next statement of the main
line, `TimerExpired = 0` (line 265), lowers it to 0; the values observed after
the start, 1 then 0, are not a non-decreasing sequence. -/
theorem C5_counterexample :
    (⟨.main, .XTmrCtr_Start TIMER_CNTR_0⟩ : Ev) ∈ stateStarted.trace ∧
    polls cfg0 envOk [.irq 0 true, .main] stateStarted = [1, 0] ∧
    ¬ List.Chain (· ≤ ·) stateStarted.TimerExpired
        (polls cfg0 envOk [.irq 0 true, .main] stateStarted) := by
  have hp : polls cfg0 envOk [.irq 0 true, .main] stateStarted = [1, 0] := by decide
  refine ⟨by decide, hp, ?_⟩
  rw [hp]
  intro hc
  cases hc with
  | cons _ hc' =>
    cases hc' with
    | cons h10 _ => exact absurd h10 (by decide)

/-- C5 as amended: once the main line has run `TimerExpired = 0` (the
statement that follows `XTmrCtr_Start`), the values of `TimerExpired` along
every interleaving are a non-decreasing sequence; from then on no statement
of the main line writes `TimerExpired`, and an interrupt leaves it as it is or
raises it by exactly 1. -/
theorem C5_monotone_after_reset (cfg : Config) (env : Env) (s : State)
    (hr : Reachable cfg env s) (hd : s.pc.resetDone = true) :
    (∀ ticks, List.Chain (· ≤ ·) s.TimerExpired (polls cfg env ticks s)) ∧
    (∀ ticks, (run cfg env ticks s).pc.resetDone = true) ∧
    (next cfg env .main s).TimerExpired = s.TimerExpired ∧
    (∀ n e, (next cfg env (.irq n e) s).TimerExpired = s.TimerExpired ∨
      (next cfg env (.irq n e) s).TimerExpired = s.TimerExpired + 1) := by
  have hinv := Inv_reachable cfg env s hr
  refine ⟨fun ticks => (polls_chain cfg env ticks s hinv hd).1,
    fun ticks => (polls_chain cfg env ticks s hinv hd).2,
    (resetDone_main cfg env s hd).2,
    fun n e => (irq_TimerExpired cfg env n e s hinv.2).2⟩

set_option maxRecDepth 100000 in
/-- C5 as amended at a concrete input: from the entry of the consumer loop,
two expiries around a statement of the main line are observed as 1, 1, 2. -/
theorem C5_monotone_after_reset_witness :
    Reachable cfg0 envOk (run cfg0 envOk bringUpTicks State.init) ∧
    (run cfg0 envOk bringUpTicks State.init).pc.resetDone = true ∧
    polls cfg0 envOk [.irq 0 true, .main, .irq 0 true]
      (run cfg0 envOk bringUpTicks State.init) = [1, 1, 2] ∧
    List.Chain (· ≤ ·) (run cfg0 envOk bringUpTicks State.init).TimerExpired
      (polls cfg0 envOk [.irq 0 true, .main, .irq 0 true]
        (run cfg0 envOk bringUpTicks State.init)) :=
  ⟨⟨_, rfl⟩, by decide, by decide,
    (C5_monotone_after_reset cfg0 envOk _ ⟨_, rfl⟩ (by decide)).1 _⟩

/-! ## Failure of a bring-up step -/

theorem failing_unarmed (cfg : Config) (env : Env) (s : State) (h : Inv cfg env s)
    (hf : ¬ env.allOk) : s.pc.unarmed = true ∧ ∀ n, (s.hw.chan n).options = 0 := by
  obtain ⟨hm, hn, -, -, hph, -⟩ := h
  have hu : s.pc.unarmed = true := by
    rcases s with ⟨pc, last, te, dev, tr⟩
    cases pc <;> simp_all [MainInv, Pc.unarmed, XST_FAILURE_ne_SUCCESS]
  refine ⟨hu, fun n => ?_⟩
  rcases hph with ⟨-, ho, -⟩ | ⟨hu', -⟩ | ⟨hu', -⟩
  · by_cases hn0 : n = 0
    · rw [hn0]; exact ho
    · exact hn n hn0
  · rw [hu] at hu'; exact absurd hu' (by decide)
  · rw [hu] at hu'; exact absurd hu' (by decide)

theorem failing_irq (cfg : Config) (env : Env) (n : Nat) (e : Bool) (s : State)
    (h : Inv cfg env s) (hf : ¬ env.allOk) : next cfg env (.irq n e) s = s := by
  have hz := (failing_unarmed cfg env s h hf).2 n
  simp [next, step, hz, intMode_zero]

theorem failing_main (cfg : Config) (env : Env) (s : State) (h : Inv cfg env s)
    (hf : ¬ env.allOk) :
    (next cfg env .main s).pc.failRank ≤ s.pc.failRank - 1 ∧
    (s.pc.failRank = 0 → s.pc = .exited XST_FAILURE) := by
  obtain ⟨hm, -⟩ := h
  rcases s with ⟨pc, last, te, dev, tr⟩
  cases pc <;> simp only [next, step, main, TmrCtrIntrExample, TmrCtrSetupIntrSystem,
    TmrCtrDisableIntr] <;> (try split_ifs) <;>
    simp_all [MainInv, Pc.failRank, State.goto, State.log, State.call, Env.allOk,
      XST_FAILURE_ne_SUCCESS, XST_SUCCESS_ne_FAILURE]
  rcases hm with ⟨-, ⟨h1, h2, h3, h4, h5⟩, -⟩ | ⟨h, -⟩
  · exact absurd h5 (hf h1 h2 h3 h4)
  · exact h

theorem failing_run (cfg : Config) (env : Env) (hf : ¬ env.allOk) (ticks : List Tick) :
    ∀ s : State, Inv cfg env s → s.pc.failRank ≤ ticks.count .main →
      (run cfg env ticks s).pc = .exited XST_FAILURE := by
  induction ticks with
  | nil =>
      intro s h hk
      exact (failing_main cfg env s h hf).2 (by simpa using hk)
  | cons t ts ih =>
      intro s h hk
      cases t with
      | main =>
          have h1 := (failing_main cfg env s h hf).1
          refine ih _ (Inv_next cfg env .main s h) ?_
          simp only [List.count_cons_self] at hk
          omega
      | irq n e =>
          have h1 : List.count Tick.main (Tick.irq n e :: ts) = List.count Tick.main ts := by
            simp [List.count_cons]
          rw [h1] at hk
          show (run cfg env ts (next cfg env (.irq n e) s)).pc = _
          rw [failing_irq cfg env n e s h hf]
          exact ih s h hk

theorem take_prefix_take (l : List Call) (m : Call) (j k : Nat) (hjk : j ≤ k) :
    l.take j <+: l.take k ++ [m] := by
  have h1 : l.take j = (l.take k).take j := by
    rw [List.take_take, Nat.min_eq_left hjk]
  rw [h1]
  exact (List.take_prefix _ _).trans (List.prefix_append _ _)

theorem failedCalls_spec (cfg : Config) (env : Env) (hf : ¬ env.allOk) :
    ∃ k, failedCalls cfg env = some ((bringUp cfg).take k) ∧ 1 ≤ k ∧
      (env.tmrInit = XST_SUCCESS → 2 ≤ k) ∧
      (env.tmrInit = XST_SUCCESS → env.selfTest = XST_SUCCESS → 3 ≤ k) ∧
      (env.tmrInit = XST_SUCCESS → env.selfTest = XST_SUCCESS → env.lookupFound = true →
        4 ≤ k) ∧
      (env.tmrInit = XST_SUCCESS → env.selfTest = XST_SUCCESS → env.lookupFound = true →
        env.cfgInit = XST_SUCCESS → 6 ≤ k) := by
  unfold failedCalls
  by_cases h1 : env.tmrInit = XST_SUCCESS
  · by_cases h2 : env.selfTest = XST_SUCCESS
    · by_cases h3 : env.lookupFound = true
      · by_cases h4 : env.cfgInit = XST_SUCCESS
        · have h5 : env.connect ≠ XST_SUCCESS := fun h5 => hf ⟨h1, h2, h3, h4, h5⟩
          exact ⟨6, by simp [h1, h2, h3, h4, h5], by omega, by omega, by omega, by omega,
            by omega⟩
        · exact ⟨4, by simp [h1, h2, h3, h4], by omega, by omega, by omega, by omega,
            fun _ _ _ h => absurd h h4⟩
      · exact ⟨3, by simp [h1, h2, h3], by omega, by omega, by omega,
          fun _ _ h => absurd h h3, fun _ _ h => absurd h h3⟩
    · exact ⟨2, by simp [h1, h2], by omega, by omega, fun _ h => absurd h h2,
        fun _ h => absurd h h2, fun _ h => absurd h h2⟩
  · exact ⟨1, by simp [h1], by omega, fun h => absurd h h1, fun h => absurd h h1,
      fun h => absurd h h1, fun h => absurd h h1⟩

theorem failing_calls (cfg : Config) (env : Env) (s : State) (h : Inv cfg env s)
    (hf : ¬ env.allOk) :
    ∃ l, failedCalls cfg env = some l ∧ callsOf .main s.trace <+: l ++ [failedMessage] := by
  obtain ⟨hm, -⟩ := h
  obtain ⟨k, hk, k1, k2, k3, k4, k6⟩ := failedCalls_spec cfg env hf
  refine ⟨_, hk, ?_⟩
  rcases s with ⟨pc, last, te, dev, tr⟩
  cases pc <;> simp only [MainInv] at hm ⊢
  case tmrInit => rw [hm]; exact List.nil_prefix
  case selfTest => rw [hm.2]; exact take_prefix_take _ _ _ _ (le_trans (by omega) (k2 hm.1))
  case gicLookup => rw [hm.2.2]; exact take_prefix_take _ _ _ _ (le_trans (by omega) (k3 hm.1
    hm.2.1))
  case gicCfgInit =>
    rw [hm.2.2.2]; exact take_prefix_take _ _ _ _ (le_trans (by omega) (k4 hm.1 hm.2.1 hm.2.2.1))
  case gicSetPriority =>
    rw [hm.2.2.2.2]
    exact take_prefix_take _ _ _ _ (le_trans (by omega) (k6 hm.1 hm.2.1 hm.2.2.1 hm.2.2.2.1))
  case gicConnect =>
    rw [hm.2.2.2.2]
    exact take_prefix_take _ _ _ _ (le_trans (by omega) (k6 hm.1 hm.2.1 hm.2.2.1 hm.2.2.2.1))
  case setupReturned st =>
    rcases hm with ⟨-, hok, -⟩ | ⟨-, -, -, hc⟩
    · exact absurd hok hf
    · rw [hk] at hc
      rw [← Option.some.inj hc]
      exact List.prefix_append _ _
  case mainCheck st =>
    rcases hm with ⟨-, hok, -⟩ | ⟨-, hc⟩
    · exact absurd hok hf
    · rw [hk] at hc
      rw [← Option.some.inj hc]
      exact List.prefix_append _ _
  case exited st =>
    rcases hm with ⟨-, hok, -⟩ | ⟨-, l, hl, hc⟩
    · exact absurd hok hf
    · rw [hk] at hl
      rw [hc, ← Option.some.inj hl]
      exact List.prefix_rfl
  all_goals exact absurd hm.1 hf

theorem failedCalls_no_start (cfg : Config) (env : Env) (l : List Call)
    (h : failedCalls cfg env = some l) (n : Nat) :
    Call.XTmrCtr_Start n ∉ l ++ [failedMessage] := by
  unfold failedCalls at h
  split_ifs at h <;> simp only [Option.some.injEq, reduceCtorEq] at h <;> subst h <;>
    simp [bringUp, failedMessage]

theorem failing_returns (cfg : Config) (env : Env) (hf : ¬ env.allOk) :
    ∃ k, k ≤ 7 ∧
      (run cfg env (List.replicate k .main) State.init).pc = .mainCheck XST_FAILURE := by
  by_cases h1 : env.tmrInit = XST_SUCCESS
  · by_cases h2 : env.selfTest = XST_SUCCESS
    · by_cases h3 : env.lookupFound = true
      · by_cases h4 : env.cfgInit = XST_SUCCESS
        · have h5 : env.connect ≠ XST_SUCCESS := fun h5 => hf ⟨h1, h2, h3, h4, h5⟩
          exact ⟨7, by omega, by
            simp [List.replicate, run, next, step, main, TmrCtrIntrExample, TmrCtrSetupIntrSystem,
              TmrCtrDisableIntr, State.init, State.goto, State.log,
              State.call, h1, h2, h3, h4, h5]⟩
        · exact ⟨5, by omega, by
            simp [List.replicate, run, next, step, main, TmrCtrIntrExample, TmrCtrSetupIntrSystem,
              TmrCtrDisableIntr, State.init, State.goto, State.log,
              State.call, h1, h2, h3, h4, XST_FAILURE_ne_SUCCESS]⟩
      · exact ⟨4, by omega, by
          simp [List.replicate, run, next, step, main, TmrCtrIntrExample, TmrCtrSetupIntrSystem,
            TmrCtrDisableIntr, State.init, State.goto, State.log,
            State.call, h1, h2, h3, XST_FAILURE_ne_SUCCESS]⟩
    · exact ⟨2, by omega, by
        simp [List.replicate, run, next, step, main, TmrCtrIntrExample, TmrCtrSetupIntrSystem,
          TmrCtrDisableIntr, State.init, State.goto, State.log,
          State.call, h1, h2]⟩
  · exact ⟨1, by omega, by
      simp [List.replicate, run, next, step, main, TmrCtrIntrExample, TmrCtrSetupIntrSystem,
        TmrCtrDisableIntr, State.init, State.goto, State.log,
        State.call, h1]⟩

/-- C6: when a fallible bring-up step (`XTmrCtr_Initialize`,
`XTmrCtr_SelfTest`, `XScuGic_LookupConfig`, `XScuGic_CfgInitialize`,
`XScuGic_Connect`) reports a failure, then under every schedule the main
line's calls are a beginning of the calls up to the first failing step
followed by the failure message of `main`, so no later bring-up step runs and
`XTmrCtr_Start` is never called; `TmrCtrIntrExample` returns `XST_FAILURE`
(within 7 statements), and `main` returns `XST_FAILURE` (every schedule
with 8 statements of the main line ends there), never `XST_SUCCESS`. -/
theorem C6_failure_aborts (cfg : Config) (env : Env) (hf : ¬ env.allOk) :
    (∀ ticks, 8 ≤ ticks.count .main →
      (run cfg env ticks State.init).pc = .exited XST_FAILURE) ∧
    (∃ k, k ≤ 7 ∧
      (run cfg env (List.replicate k .main) State.init).pc = .mainCheck XST_FAILURE) ∧
    (∀ s, Reachable cfg env s →
      (∃ l, failedCalls cfg env = some l ∧ callsOf .main s.trace <+: l ++ [failedMessage]) ∧
      (∀ n, Call.XTmrCtr_Start n ∉ callsOf .main s.trace) ∧
      (∀ st, s.pc = .mainCheck st → st = XST_FAILURE) ∧
      (∀ st, s.pc = .exited st → st = XST_FAILURE) ∧
      s.pc ≠ .exited XST_SUCCESS) := by
  have hinit : Inv cfg env State.init := ⟨MainInv_init cfg env, CoreInv_init⟩
  refine ⟨fun ticks hk => failing_run cfg env hf ticks State.init hinit hk,
    failing_returns cfg env hf, ?_⟩
  intro s hr
  have hinv := Inv_reachable cfg env s hr
  obtain ⟨l, hl, hpre⟩ := failing_calls cfg env s hinv hf
  have hst : ∀ st, (s.pc = .mainCheck st ∨ s.pc = .exited st) → st = XST_FAILURE := by
    intro st hpc
    have hm := hinv.1
    unfold MainInv at hm
    rcases hpc with hpc | hpc <;> rw [hpc] at hm
    · rcases hm with ⟨-, hok, -⟩ | ⟨h, -⟩
      · exact absurd hok hf
      · exact h
    · rcases hm with ⟨-, hok, -⟩ | ⟨h, -⟩
      · exact absurd hok hf
      · exact h
  refine ⟨⟨l, hl, hpre⟩, ?_, fun st h => hst st (Or.inl h), fun st h => hst st (Or.inr h), ?_⟩
  · intro n hmem
    exact failedCalls_no_start cfg env l hl n (hpre.subset hmem)
  · intro hpc
    exact XST_SUCCESS_ne_FAILURE (hst _ (Or.inr hpc))

set_option maxRecDepth 100000 in
/-- C6 at a concrete input: the self-test fails; after 8 statements `main`
has returned `XST_FAILURE`, having called `XTmrCtr_Initialize`,
`XTmrCtr_SelfTest` and `xil_printf`. -/
theorem C6_failure_aborts_witness :
    ¬ envSelfTestFails.allOk ∧
    (run cfg0 envSelfTestFails (List.replicate 8 .main) State.init).pc = .exited XST_FAILURE ∧
    callsOf .main (run cfg0 envSelfTestFails (List.replicate 8 .main) State.init).trace =
      [.XTmrCtr_Initialize 0, .XTmrCtr_SelfTest 0, failedMessage] :=
  ⟨by decide,
    (C6_failure_aborts cfg0 envSelfTestFails (by decide)).1 (List.replicate 8 .main)
      (by decide),
    by decide⟩

/-! ## Order of the bring-up -/

theorem allOk_eq (env : Env) (h : env.allOk) : env = envOk := by
  rcases env with ⟨a, b, c, d, e⟩
  obtain ⟨h1, h2, h3, h4, h5⟩ := h
  simp only at h1 h2 h3 h4 h5
  subst h1 h2 h3 h4 h5
  rfl

theorem allOk_calls_prefix (cfg : Config) (env : Env) (s : State) (h : Inv cfg env s)
    (hok : env.allOk) :
    callsOf .main s.trace <+: bringUp cfg ++ tearDown cfg ++ [successMessage] := by
  have hnone : failedCalls cfg env = none := by
    obtain ⟨h1, h2, h3, h4, h5⟩ := hok
    simp [failedCalls, h1, h2, h3, h4, h5]
  have key : ∀ j, List.take j (bringUp cfg ++ tearDown cfg ++ [successMessage]) <+:
      bringUp cfg ++ tearDown cfg ++ [successMessage] := fun j => List.take_prefix j _
  obtain ⟨hm, -⟩ := h
  rcases s with ⟨pc, last, te, dev, tr⟩
  cases pc <;> simp only [MainInv, hnone, reduceCtorEq, and_false, or_false, false_and,
    exists_false] at hm ⊢
  case tmrInit => rw [hm]; exact List.nil_prefix
  case selfTest => rw [hm.2]; exact key 1
  case gicLookup => rw [hm.2.2]; exact key 2
  case gicCfgInit => rw [hm.2.2.2]; exact key 3
  case gicSetPriority => rw [hm.2.2.2.2]; exact key 4
  case gicConnect => rw [hm.2.2.2.2]; exact key 5
  case gicEnable => rw [hm.2]; exact key 6
  case excInit => rw [hm.2]; exact key 7
  case excRegister => rw [hm.2]; exact key 8
  case excEnable => rw [hm.2]; exact key 9
  case setupReturned st => rw [hm.2.2]; exact key 10
  case setHandler => rw [hm.2]; exact key 10
  case setOptions => rw [hm.2]; exact key 11
  case setResetValue => rw [hm.2]; exact key 12
  case start => rw [hm.2]; exact key 13
  case resetExpired => rw [hm.2]; exact key 14
  case waitLoop => rw [hm.2]; exact key 14
  case latch => rw [hm.2]; exact key 14
  case boundCheck => rw [hm.2]; exact key 14
  case stop => rw [hm.2]; exact key 14
  case gicDisable => rw [hm.2]; exact key 15
  case gicDisconnect => rw [hm.2]; exact key 16
  case exampleReturn => rw [hm.2]; exact key 17
  case mainCheck st => rw [hm.2.2]; exact key 17
  case exited st => rw [hm.2.2]; exact List.prefix_rfl

/-- C7: when every fallible step succeeds, the main line reaches the
statement after `XTmrCtr_Start` (15 statements), and whenever it stands
there, under every schedule, its driver calls so far are exactly
`XTmrCtr_Initialize`, `XTmrCtr_SelfTest`, `XScuGic_LookupConfig`,
`XScuGic_CfgInitialize`, `XScuGic_SetPriorityTriggerType`, `XScuGic_Connect`,
`XScuGic_Enable`, `Xil_ExceptionInit`, `Xil_ExceptionRegisterHandler`,
`Xil_ExceptionEnable`, `XTmrCtr_SetHandler`, `XTmrCtr_SetOptions`,
`XTmrCtr_SetResetValue`, `XTmrCtr_Start`, in this order; without the two
calls the specification's sequence does not name this is that sequence, and
in every reachable state the main line's calls are a beginning of the one
fixed sequence of the successful run. -/
theorem C7_bringup_order (cfg : Config) (env : Env) (hok : env.allOk) :
    (run cfg env (List.replicate 15 .main) State.init).pc = .resetExpired ∧
    (∀ s, Reachable cfg env s → s.pc = .resetExpired →
      callsOf .main s.trace =
        [ .XTmrCtr_Initialize cfg.DeviceId,
          .XTmrCtr_SelfTest TIMER_CNTR_0,
          .XScuGic_LookupConfig cfg.INTC_DEVICE_ID,
          .XScuGic_CfgInitialize,
          .XScuGic_SetPriorityTriggerType cfg.IntrId 0xA0 0x3,
          .XScuGic_Connect cfg.IntrId,
          .XScuGic_Enable cfg.IntrId,
          .Xil_ExceptionInit,
          .Xil_ExceptionRegisterHandler,
          .Xil_ExceptionEnable,
          .XTmrCtr_SetHandler,
          .XTmrCtr_SetOptions TIMER_CNTR_0 (XTC_INT_MODE_OPTION ||| XTC_AUTO_RELOAD_OPTION),
          .XTmrCtr_SetResetValue TIMER_CNTR_0 RESET_VALUE,
          .XTmrCtr_Start TIMER_CNTR_0 ] ∧
      (callsOf .main s.trace).filter (fun c => !unnamedBySequencer c) = sequencerOrder cfg) ∧
    (∀ s, Reachable cfg env s →
      callsOf .main s.trace <+: bringUp cfg ++ tearDown cfg ++ [successMessage]) := by
  refine ⟨?_, ?_, ?_⟩
  · rw [allOk_eq env hok]
    simp [List.replicate, run, next, step, main, TmrCtrIntrExample, TmrCtrSetupIntrSystem,
      State.init, envOk, State.goto, State.call, State.log]
  · intro s hr hpc
    have hm := (Inv_reachable cfg env s hr).1
    unfold MainInv at hm
    rw [hpc] at hm
    rw [hm.2]
    exact ⟨rfl, rfl⟩
  · intro s hr
    exact allOk_calls_prefix cfg env s (Inv_reachable cfg env s hr) hok

set_option maxRecDepth 100000 in
/-- C7 at a concrete input: the bring-up of the concrete run. -/
theorem C7_bringup_order_witness :
    envOk.allOk ∧
    (run cfg0 envOk (List.replicate 15 .main) State.init).pc = .resetExpired ∧
    callsOf .main (run cfg0 envOk (List.replicate 15 .main) State.init).trace = bringUp cfg0 :=
  ⟨by decide, (C7_bringup_order cfg0 envOk (by decide)).1, by decide⟩

/-! ## Installation of the dispatcher -/

set_option maxRecDepth 100000 in
/-- C8 as stated fails: in the successful setup of both programs
`XScuGic_Enable` is called before `Xil_ExceptionInit`,
`Xil_ExceptionRegisterHandler` and `Xil_ExceptionEnable`, so the dispatcher is
installed, and the exception table written, after the line was enabled. -/
theorem C8_counterexample :
    stateSetupDone.pc = .setupReturned XST_SUCCESS ∧
    callsOf .main stateSetupDone.trace =
      [ .XTmrCtr_Initialize 0, .XTmrCtr_SelfTest 0, .XScuGic_LookupConfig 0,
        .XScuGic_CfgInitialize, .XScuGic_SetPriorityTriggerType 121 0xA0 0x3,
        .XScuGic_Connect 121, .XScuGic_Enable 121, .Xil_ExceptionInit,
        .Xil_ExceptionRegisterHandler, .Xil_ExceptionEnable ] ∧
    dispatcherBeforeEnable (callsOf .main stateSetupDone.trace) = false ∧
    SetupInterruptSystem 121 0 envOk =
      (XST_SUCCESS, [ .XScuGic_LookupConfig 0, .XScuGic_CfgInitialize, .XScuGic_Connect 121,
        .XScuGic_Enable 121, .Xil_ExceptionInit, .Xil_ExceptionRegisterHandler,
        .Xil_ExceptionEnable ]) ∧
    dispatcherBeforeEnable (SetupInterruptSystem 121 0 envOk).2 = false := by
  decide

theorem failedCalls_quiet (cfg : Config) (env : Env) (l : List Call)
    (h : failedCalls cfg env = some l) :
    ∀ c ∈ l, isEnableCall c = false ∧ isDispatcherCall c = false := by
  unfold failedCalls at h
  split_ifs at h <;> simp only [Option.some.injEq, reduceCtorEq] at h <;> subst h <;>
    simp [bringUp, isEnableCall, isDispatcherCall]

/-- C8 as amended: a setup that succeeds calls `XScuGic_Enable` and then
`Xil_ExceptionInit`, `Xil_ExceptionRegisterHandler`, `Xil_ExceptionEnable`,
each exactly once and in this order, so the dispatcher is installed once,
after the line has been connected and enabled; a setup in which the lookup,
`XScuGic_CfgInitialize` or `XScuGic_Connect` fails returns a status other than
`XST_SUCCESS` and calls neither `XScuGic_Enable` nor any of the three. This
holds for `SetupInterruptSystem` of helloworld.c and, under every schedule,
for `TmrCtrSetupIntrSystem` of main.c (whose calls follow the two of
`TmrCtrIntrExample` made before it). -/
theorem C8_dispatcher_after_enable (cfg : Config) (env : Env) (TIMER_INT_ID INTC_DEVICE_ID : Nat) :
    ((SetupInterruptSystem TIMER_INT_ID INTC_DEVICE_ID env).1 = XST_SUCCESS →
      (SetupInterruptSystem TIMER_INT_ID INTC_DEVICE_ID env).2 =
        [ .XScuGic_LookupConfig INTC_DEVICE_ID, .XScuGic_CfgInitialize,
          .XScuGic_Connect TIMER_INT_ID, .XScuGic_Enable TIMER_INT_ID, .Xil_ExceptionInit,
          .Xil_ExceptionRegisterHandler, .Xil_ExceptionEnable ]) ∧
    ((SetupInterruptSystem TIMER_INT_ID INTC_DEVICE_ID env).1 ≠ XST_SUCCESS →
      ∀ c ∈ (SetupInterruptSystem TIMER_INT_ID INTC_DEVICE_ID env).2,
        isEnableCall c = false ∧ isDispatcherCall c = false) ∧
    ((SetupInterruptSystem TIMER_INT_ID INTC_DEVICE_ID env).1 = XST_SUCCESS ↔
      (env.lookupFound = true ∧ env.cfgInit = XST_SUCCESS ∧ env.connect = XST_SUCCESS)) ∧
    (∀ s st, Reachable cfg env s → s.pc = .setupReturned st →
      (st = XST_SUCCESS →
        (callsOf .main s.trace).drop 2 =
          [ .XScuGic_LookupConfig cfg.INTC_DEVICE_ID, .XScuGic_CfgInitialize,
            .XScuGic_SetPriorityTriggerType cfg.IntrId 0xA0 0x3, .XScuGic_Connect cfg.IntrId,
            .XScuGic_Enable cfg.IntrId, .Xil_ExceptionInit, .Xil_ExceptionRegisterHandler,
            .Xil_ExceptionEnable ]) ∧
      (st ≠ XST_SUCCESS →
        ∀ c ∈ callsOf .main s.trace, isEnableCall c = false ∧ isDispatcherCall c = false)) := by
  refine ⟨?_, ?_, ?_, ?_⟩
  · unfold SetupInterruptSystem
    split_ifs <;> simp [XST_FAILURE_ne_SUCCESS]
  · unfold SetupInterruptSystem
    split_ifs <;> simp [XST_FAILURE_ne_SUCCESS, isEnableCall, isDispatcherCall]
  · unfold SetupInterruptSystem
    split_ifs <;> simp_all [XST_FAILURE_ne_SUCCESS]
  · intro s st hr hpc
    have hm := (Inv_reachable cfg env s hr).1
    unfold MainInv at hm
    rw [hpc] at hm
    rcases hm with ⟨h1, -, h3⟩ | ⟨h1, -, -, h4⟩
    · refine ⟨fun _ => ?_, fun h => absurd h1 h⟩
      rw [h3]
      rfl
    · exact ⟨fun h => absurd h h1, fun _ => failedCalls_quiet cfg env _ h4⟩

/-! ## The end-to-end scenario -/

theorem stored_append (cfg : Config) (env : Env) (t1 t2 : List Tick) :
    ∀ s : State, stored cfg env (t1 ++ t2) s =
      stored cfg env t1 s ++ stored cfg env t2 (run cfg env t1 s) := by
  induction t1 with
  | nil => intro s; rfl
  | cons t ts ih =>
      intro s
      show _ ++ stored cfg env (ts ++ t2) (next cfg env t s) =
        (_ ++ stored cfg env ts (next cfg env t s)) ++
          stored cfg env t2 (run cfg env ts (next cfg env t s))
      rw [ih, List.append_assoc]

theorem callsOf_append_list (ctx : Ctx) (tr l : List Ev) :
    callsOf ctx (tr ++ l) = callsOf ctx tr ++ callsOf ctx l := by
  simp [callsOf]

theorem spin_idle (cfg : Config) (env : Env) (s : State) (hpc : s.pc = .waitLoop)
    (heq : s.TimerExpired = s.LastTimerExpired) (j : Nat) :
    run cfg env (List.replicate j .main) s = s ∧
      stored cfg env (List.replicate j .main) s = [] := by
  have h1 : next cfg env .main s = s := by
    rcases s with ⟨pc, last, te, dev, tr⟩
    simp only at hpc heq
    subst hpc heq
    simp [next, step, main, TmrCtrIntrExample, TmrCtrSetupIntrSystem, TmrCtrDisableIntr, State.goto]
  induction j with
  | zero => exact ⟨rfl, rfl⟩
  | succ j ih =>
      simp only [List.replicate_succ, run, stored, h1, hpc]
      simpa using ih

theorem round_step (cfg : Config) (env : Env) (j : Nat) (i : Int) (s : State)
    (h : AtWait i s) (h0 : 0 ≤ i) (h9 : i < 9) :
    AtWait (i + 1) (run cfg env (roundTicks j) s) ∧
    stored cfg env (roundTicks j) s = [i + 1] ∧
    callsOf .main (run cfg env (roundTicks j) s).trace = callsOf .main s.trace := by
  obtain ⟨hpc, hte, hlast, hopt⟩ := h
  obtain ⟨hs1, hs2⟩ := spin_idle cfg env s hpc (by rw [hte, hlast]) j
  have hw : wrapInt32 (i + 1) = i + 1 := wrapInt32_eq _ (by omega) (by omega)
  have hlt : ¬ (10 ≤ i + 1) := by omega
  have hne : ¬ (i + 1 = i) := by omega
  have hne10 : ¬ (i + 1 = 10) := by omega
  unfold roundTicks
  rw [run_append, stored_append, hs1, hs2]
  rcases s with ⟨pc, last, te, dev, tr⟩
  simp only at hpc hte hlast hopt
  subst hpc hte hlast
  simp [AtWait, run, stored, next, step, main, TmrCtrIntrExample, TmrCtrSetupIntrSystem,
    TmrCtrDisableIntr, TimerCounterHandler, State.goto, State.log,
    hopt, intMode_twelve, hw, hlt, hne, hne10, callsOf_append_list]
  simp [callsOf]

theorem round_last (cfg : Config) (env : Env) (j : Nat) (s : State) (h : AtWait 9 s) :
    (run cfg env (roundTicks j) s).pc = .stop ∧
    (run cfg env (roundTicks j) s).TimerExpired = 10 ∧
    stored cfg env (roundTicks j) s = [10] ∧
    callsOf .main (run cfg env (roundTicks j) s).trace = callsOf .main s.trace := by
  obtain ⟨hpc, hte, hlast, hopt⟩ := h
  obtain ⟨hs1, hs2⟩ := spin_idle cfg env s hpc (by rw [hte, hlast]) j
  have hw : wrapInt32 10 = 10 := by decide
  unfold roundTicks
  rw [run_append, stored_append, hs1, hs2]
  rcases s with ⟨pc, last, te, dev, tr⟩
  simp only at hpc hte hlast hopt
  subst hpc hte hlast
  simp [run, stored, next, step, main, TmrCtrIntrExample, TmrCtrSetupIntrSystem,
    TmrCtrDisableIntr, TimerCounterHandler, State.goto, State.log,
    State.call, hopt, intMode_twelve, hw, callsOf_append_list]
  simp [callsOf]

theorem rounds_step (cfg : Config) (env : Env) :
    ∀ (spins : List Nat) (i : Int) (s : State), AtWait i s → 0 ≤ i →
      i + spins.length ≤ 9 →
      AtWait (i + spins.length) (run cfg env (spins.map roundTicks).flatten s) ∧
      stored cfg env (spins.map roundTicks).flatten s =
        (List.range spins.length).map (fun k : Nat => i + 1 + (k : Int)) ∧
      callsOf .main (run cfg env (spins.map roundTicks).flatten s).trace =
        callsOf .main s.trace := by
  intro spins
  induction spins with
  | nil =>
      intro i s h _ _
      simpa [run, stored] using h
  | cons j js ih =>
      intro i s h h0 h9
      simp only [List.length_cons, Nat.cast_add, Nat.cast_one] at h9
      obtain ⟨h1, h2, h3⟩ := round_step cfg env j i s h h0 (by omega)
      obtain ⟨h4, h5, h6⟩ := ih (i + 1) _ h1 (by omega) (by omega)
      simp only [List.map_cons, List.flatten_cons, run_append, stored_append, h2, h5, h6, h3,
        List.length_cons, Nat.cast_add, Nat.cast_one]
      refine ⟨?_, ?_, trivial⟩
      · have e : i + ((js.length : Int) + 1) = i + 1 + (js.length : Int) := by ring
        rw [e]
        exact h4
      · rw [List.range_succ_eq_map]
        simp only [List.map_cons, List.map_map, Nat.cast_zero, add_zero, List.singleton_append,
          List.cons.injEq, true_and]
        apply List.map_congr_left
        intro k _
        simp only [Function.comp_apply, Nat.cast_succ]
        ring

theorem bringUp_pc (cfg : Config) : (run cfg envOk bringUpTicks State.init).pc = .waitLoop := by
  simp [bringUpTicks, List.replicate, run, next, step, main, TmrCtrIntrExample,
    TmrCtrSetupIntrSystem, State.init, envOk, State.goto, State.call, State.log]

theorem bringUp_TimerExpired (cfg : Config) :
    (run cfg envOk bringUpTicks State.init).TimerExpired = 0 := by
  simp [bringUpTicks, List.replicate, run, next, step, main, TmrCtrIntrExample,
    TmrCtrSetupIntrSystem, State.init, envOk, State.goto, State.call, State.log]

theorem bringUp_LastTimerExpired (cfg : Config) :
    (run cfg envOk bringUpTicks State.init).LastTimerExpired = 0 := by
  simp [bringUpTicks, List.replicate, run, next, step, main, TmrCtrIntrExample,
    TmrCtrSetupIntrSystem, State.init, envOk, State.goto, State.call, State.log]

theorem main_isrCalls (cfg : Config) (env : Env) (s : State) :
    callsOf .isr (next cfg env .main s).trace = callsOf .isr s.trace := by
  rcases s with ⟨pc, last, te, dev, tr⟩
  cases pc <;>
    simp only [next, step, main, TmrCtrIntrExample, TmrCtrSetupIntrSystem,
      TmrCtrDisableIntr] <;>
    (try split_ifs) <;>
    simp [State.goto, State.log, State.call, callsOf_append]

theorem mainOnly_isrCalls (cfg : Config) (env : Env) (k : Nat) :
    ∀ s : State, callsOf .isr (run cfg env (List.replicate k .main) s).trace =
      callsOf .isr s.trace := by
  induction k with
  | zero => intro s; rfl
  | succ k ih =>
      intro s
      show callsOf .isr (run cfg env (List.replicate k .main) (next cfg env .main s)).trace = _
      rw [ih, main_isrCalls]

theorem mem_callsOf (ctx : Ctx) (c : Call) (tr : List Ev) (h : (⟨ctx, c⟩ : Ev) ∈ tr) :
    c ∈ callsOf ctx tr := by
  unfold callsOf
  exact List.mem_map.mpr ⟨⟨ctx, c⟩, List.mem_filter.mpr ⟨h, by simp⟩, rfl⟩

theorem bringUp_reachable (cfg : Config) :
    Reachable cfg envOk (run cfg envOk bringUpTicks State.init) :=
  ⟨bringUpTicks, rfl⟩

theorem bringUp_options (cfg : Config) :
    ((run cfg envOk bringUpTicks State.init).hw.chan 0).options = 12 := by
  have hph := (Inv_reachable cfg envOk _ (bringUp_reachable cfg)).2.2.2.2.1
  have hisr : callsOf .isr (run cfg envOk bringUpTicks State.init).trace = [] :=
    mainOnly_isrCalls cfg envOk 16 State.init
  rcases hph with ⟨hu, -⟩ | ⟨-, ho, -⟩ | ⟨-, -, hm⟩
  · rw [bringUp_pc cfg] at hu
    exact absurd hu (by decide)
  · exact ho
  · have hmem := mem_callsOf _ _ _ hm
    rw [hisr] at hmem
    exact absurd hmem (List.not_mem_nil _)

theorem bringUp_atWait (cfg : Config) : AtWait 0 (run cfg envOk bringUpTicks State.init) :=
  ⟨bringUp_pc cfg, bringUp_TimerExpired cfg, bringUp_LastTimerExpired cfg, bringUp_options cfg⟩

theorem reachable_waitLoop_calls (cfg : Config) (env : Env) (s : State)
    (hr : Reachable cfg env s) (hpc : s.pc = .waitLoop) :
    callsOf .main s.trace = bringUp cfg := by
  have h := (Inv_reachable cfg env s hr).1
  unfold MainInv at h
  rw [hpc] at h
  exact h.2

theorem bringUp_calls (cfg : Config) :
    callsOf .main (run cfg envOk bringUpTicks State.init).trace = bringUp cfg :=
  reachable_waitLoop_calls cfg envOk _ (bringUp_reachable cfg) (bringUp_pc cfg)

theorem bringUp_stored (cfg : Config) : stored cfg envOk bringUpTicks State.init = [] := by
  simp [bringUpTicks, List.replicate, stored, next, step, main, TmrCtrIntrExample,
    TmrCtrSetupIntrSystem, TmrCtrDisableIntr, State.init, envOk,
    State.goto, State.call, State.log]

theorem finish_run (cfg : Config) (env : Env) (s : State) (hpc : s.pc = .stop) :
    (run cfg env finishTicks s).pc = .mainCheck XST_SUCCESS ∧
    stored cfg env finishTicks s = [] ∧
    callsOf .main (run cfg env finishTicks s).trace =
      callsOf .main s.trace ++ tearDown cfg := by
  rcases s with ⟨pc, last, te, dev, tr⟩
  simp only at hpc
  subst hpc
  simp [finishTicks, List.replicate, run, stored, next, step, main, TmrCtrIntrExample,
    TmrCtrSetupIntrSystem, TmrCtrDisableIntr, State.goto, State.call,
    callsOf_append_list, tearDown]
  simp [callsOf]

/-- C9: with the bound 10 of the code and a bring-up in which every step
succeeds, when the timer expires exactly 10 times, once in each round of the
consumer loop while the consumer waits (after any number of evaluations of
the waiting condition), the values the loop stores in `LastTimerExpired` are
1, 2, ..., 10 in this order; when the tenth has been stored the main line has
made no call beyond the bring-up and stands at `XTmrCtr_Stop`; it then calls
`XTmrCtr_Stop`, `XScuGic_Disable` and `XScuGic_Disconnect` once each, and
`TmrCtrIntrExample` returns `XST_SUCCESS`. -/
theorem C9_end_to_end (cfg : Config) (env : Env) (spins : List Nat) (hok : env.allOk)
    (hlen : spins.length = 10) :
    stored cfg env (e2eTicks spins) State.init = [1, 2, 3, 4, 5, 6, 7, 8, 9, 10] ∧
    (run cfg env (e2eTicks spins) State.init).pc = .mainCheck XST_SUCCESS ∧
    callsOf .main (run cfg env (e2eTicks spins) State.init).trace =
      bringUp cfg ++ [.XTmrCtr_Stop TIMER_CNTR_0, .XScuGic_Disable cfg.IntrId,
        .XScuGic_Disconnect cfg.IntrId] ∧
    stored cfg env (bringUpTicks ++ (spins.map roundTicks).flatten) State.init =
      [1, 2, 3, 4, 5, 6, 7, 8, 9, 10] ∧
    (run cfg env (bringUpTicks ++ (spins.map roundTicks).flatten) State.init).pc = .stop ∧
    (run cfg env (bringUpTicks ++ (spins.map roundTicks).flatten) State.init).TimerExpired
      = 10 ∧
    callsOf .main
      (run cfg env (bringUpTicks ++ (spins.map roundTicks).flatten) State.init).trace =
      bringUp cfg := by
  rw [allOk_eq env hok]
  have b1 := bringUp_atWait cfg
  have b2 := bringUp_stored cfg
  have b3 := bringUp_calls cfg
  have hsplit : spins = spins.take 9 ++ spins.drop 9 := (List.take_append_drop 9 spins).symm
  have hl9 : (spins.take 9).length = 9 := by rw [List.length_take, hlen]; rfl
  obtain ⟨j, hj⟩ : ∃ j, spins.drop 9 = [j] := by
    apply List.length_eq_one.mp
    rw [List.length_drop, hlen]
  rw [hj] at hsplit
  obtain ⟨r1, r2, r3⟩ := rounds_step cfg envOk (spins.take 9) 0 _ b1 (le_refl _)
    (by rw [hl9]; decide)
  rw [hl9] at r1 r2
  obtain ⟨l1, l2, l3, l4⟩ := round_last cfg envOk j _ r1
  obtain ⟨f1, f2, f3⟩ := finish_run cfg envOk _ l1
  have hrounds : (spins.map roundTicks).flatten =
      ((spins.take 9).map roundTicks).flatten ++ roundTicks j := by
    conv_lhs => rw [hsplit]
    simp
  have hstored : stored cfg envOk (bringUpTicks ++ (spins.map roundTicks).flatten) State.init =
      [1, 2, 3, 4, 5, 6, 7, 8, 9, 10] := by
    rw [hrounds, stored_append, stored_append, b2, r2, l3]
    decide
  have hrun : run cfg envOk (bringUpTicks ++ (spins.map roundTicks).flatten) State.init =
      run cfg envOk (roundTicks j) (run cfg envOk ((spins.take 9).map roundTicks).flatten
        (run cfg envOk bringUpTicks State.init)) := by
    rw [hrounds, run_append, run_append]
  have hcalls : callsOf .main
      (run cfg envOk (bringUpTicks ++ (spins.map roundTicks).flatten) State.init).trace =
      bringUp cfg := by
    rw [hrun, l4, r3, b3]
  refine ⟨?_, ?_, ?_, hstored, ?_, ?_, hcalls⟩
  · unfold e2eTicks
    rw [stored_append, hstored, hrun, f2]
    rfl
  · unfold e2eTicks
    rw [run_append, hrun]
    exact f1
  · unfold e2eTicks
    rw [run_append, hrun, f3, l4, r3, b3]
    rfl
  · rw [hrun]; exact l1
  · rw [hrun]; exact l2

set_option maxRecDepth 100000 in
/-- C9 at a concrete input: the consumer evaluates the waiting condition 0,
1, ..., 9 times before the expiry of the round. -/
theorem C9_end_to_end_witness :
    envOk.allOk ∧ (List.range 10).length = 10 ∧
    stored cfg0 envOk (e2eTicks (List.range 10)) State.init =
      [1, 2, 3, 4, 5, 6, 7, 8, 9, 10] ∧
    (run cfg0 envOk (e2eTicks (List.range 10)) State.init).pc = .mainCheck XST_SUCCESS :=
  ⟨by decide, by decide,
    (C9_end_to_end cfg0 envOk (List.range 10) (by decide) (by decide)).1,
    by decide⟩

/-! ## Several expiries between two reads of the consumer -/

theorem fires_count (cfg : Config) (env : Env) :
    ∀ (ns : List Nat) (s : State), Inv cfg env s → taken cfg env (fires ns) s = true →
      (run cfg env (fires ns) s).TimerExpired = s.TimerExpired + (ns.length : Int) ∧
      (run cfg env (fires ns) s).pc = s.pc ∧
      (run cfg env (fires ns) s).LastTimerExpired = s.LastTimerExpired := by
  intro ns
  induction ns with
  | nil => intro s _ _; simp [fires, run]
  | cons n ns ih =>
      intro s h ht
      simp only [fires, List.map_cons, taken, Bool.and_eq_true] at ht
      obtain ⟨ht1, ht2⟩ := ht
      have hg : intMode (s.hw.chan n).options = true := by
        by_contra hg
        simp [step, hg] at ht1
      obtain ⟨-, -, -, hlt⟩ := gate_open n s h.2 hg
      have h0 := h.2.2.1
      have hnext : next cfg env (.irq n true) s = TimerCounterHandler n true s := by
        simp [next, step, hg]
      obtain ⟨i1, i2, i3⟩ := ih _ (Inv_next cfg env (.irq n true) s h) ht2
      rw [hnext] at i1 i2 i3
      rw [handler_expired_TimerExpired, wrapInt32_eq _ (by omega) (by omega)] at i1
      rw [handler_pc] at i2
      rw [handler_LastTimerExpired] at i3
      have hrun : run cfg env (fires (n :: ns)) s =
          run cfg env (fires ns) (TimerCounterHandler n true s) := by
        simp only [fires, List.map_cons, run, hnext]
      rw [hrun]
      refine ⟨?_, i2, i3⟩
      rw [i1]
      simp only [List.length_cons, Nat.cast_add, Nat.cast_one]
      ring

theorem loop_to_stop (cfg : Config) (env : Env) (s : State) (h : LoopInv s)
    (hte : s.TimerExpired = 10) :
    (s.pc = .waitLoop → (run cfg env [.main, .main, .main] s).pc = .stop) ∧
    (s.pc = .latch → (run cfg env [.main, .main] s).pc = .stop) ∧
    (s.pc = .boundCheck → (run cfg env [.main] s).pc = .stop) := by
  rcases s with ⟨pc, last, te, dev, tr⟩
  simp only at hte
  subst hte
  refine ⟨?_, ?_, ?_⟩ <;> intro hpc <;> simp only at hpc <;> subst hpc <;>
    simp only [LoopInv] at h
  · have hne : ¬ ((10 : Int) = last) := by omega
    simp [run, next, step, main, TmrCtrIntrExample, TmrCtrSetupIntrSystem, TmrCtrDisableIntr,
      State.goto, hne]
  · simp [run, next, step, main, TmrCtrIntrExample, TmrCtrSetupIntrSystem, TmrCtrDisableIntr,
    State.goto]
  · simp [run, next, step, main, TmrCtrIntrExample, TmrCtrSetupIntrSystem, TmrCtrDisableIntr,
    State.goto]

/-- C10: in a state the program reaches, let the handler be dispatched
`k >= 1` times with expiry reported (each dispatch while the interrupt mode
option is set) before the consumer's next read of `TimerExpired`. The `k`
dispatches raise `TimerExpired` by exactly `k`, and never beyond 10. When the
consumer was waiting, its wait ends and `LastTimerExpired` is set to the new
value, strictly greater than its previous value; when it was about to store
the value, it stores the new one, also strictly greater. Whenever
`TimerExpired` is 10 after the dispatches, the consumer reaches the stop
branch within its next three statements; the bound is not skipped. -/
theorem C10_jump_tolerated (cfg : Config) (env : Env) (s : State) (ns : List Nat)
    (hr : Reachable cfg env s) (hk : 1 ≤ ns.length)
    (ht : taken cfg env (fires ns) s = true) :
    (run cfg env (fires ns) s).TimerExpired = s.TimerExpired + (ns.length : Int) ∧
    (run cfg env (fires ns) s).TimerExpired ≤ 10 ∧
    (s.pc = .waitLoop →
      (next cfg env .main (run cfg env (fires ns) s)).pc = .latch ∧
      (run cfg env [.main, .main] (run cfg env (fires ns) s)).pc = .boundCheck ∧
      (run cfg env [.main, .main] (run cfg env (fires ns) s)).LastTimerExpired =
        (run cfg env (fires ns) s).TimerExpired ∧
      s.LastTimerExpired <
        (run cfg env [.main, .main] (run cfg env (fires ns) s)).LastTimerExpired) ∧
    (s.pc = .latch →
      (next cfg env .main (run cfg env (fires ns) s)).pc = .boundCheck ∧
      (next cfg env .main (run cfg env (fires ns) s)).LastTimerExpired =
        (run cfg env (fires ns) s).TimerExpired ∧
      s.LastTimerExpired < (next cfg env .main (run cfg env (fires ns) s)).LastTimerExpired) ∧
    ((run cfg env (fires ns) s).TimerExpired = 10 →
      (s.pc = .waitLoop →
        (run cfg env [.main, .main, .main] (run cfg env (fires ns) s)).pc = .stop) ∧
      (s.pc = .latch → (run cfg env [.main, .main] (run cfg env (fires ns) s)).pc = .stop) ∧
      (s.pc = .boundCheck → (run cfg env [.main] (run cfg env (fires ns) s)).pc = .stop)) := by
  have hinv := Inv_reachable cfg env s hr
  obtain ⟨f1, f2, f3⟩ := fires_count cfg env ns s hinv ht
  have hinv1 := Inv_run cfg env (fires ns) s hinv
  have hl := hinv.2.2.2.2.2
  have hl1 := hinv1.2.2.2.2.2
  have hk' : (1 : Int) ≤ (ns.length : Int) := by exact_mod_cast hk
  refine ⟨f1, hinv1.2.2.2.1, ?_, ?_, ?_⟩
  · intro hpc
    have hlt : s.LastTimerExpired < (run cfg env (fires ns) s).TimerExpired := by
      unfold LoopInv at hl
      rw [hpc] at hl
      omega
    generalize run cfg env (fires ns) s = s1 at f1 f2 f3 hlt
    rw [hpc] at f2
    rcases s1 with ⟨pc, last, te, dev, tr⟩
    simp only at f2 f3 hlt
    subst f2 f3
    have hne : ¬ (te = s.LastTimerExpired) := by omega
    simp [run, next, step, main, TmrCtrIntrExample, TmrCtrSetupIntrSystem, TmrCtrDisableIntr,
      State.goto, hne, hlt]
  · intro hpc
    have hlt : s.LastTimerExpired < (run cfg env (fires ns) s).TimerExpired := by
      unfold LoopInv at hl
      rw [hpc] at hl
      omega
    generalize run cfg env (fires ns) s = s1 at f1 f2 f3 hlt
    rw [hpc] at f2
    rcases s1 with ⟨pc, last, te, dev, tr⟩
    simp only at f2 f3 hlt
    subst f2 f3
    simp [next, step, main, TmrCtrIntrExample, TmrCtrSetupIntrSystem, TmrCtrDisableIntr,
      State.goto, hlt]
  · intro h10
    obtain ⟨a, b, c⟩ := loop_to_stop cfg env _ hl1 h10
    rw [f2] at a b c
    exact ⟨a, b, c⟩

set_option maxRecDepth 100000 in
/-- C10 at a concrete input: three expiries are counted while the consumer
stands at the wait for the first time; it then stores 3. -/
theorem C10_jump_tolerated_witness :
    Reachable cfg0 envOk (run cfg0 envOk bringUpTicks State.init) ∧
    1 ≤ [0, 0, 0].length ∧
    taken cfg0 envOk (fires [0, 0, 0]) (run cfg0 envOk bringUpTicks State.init) = true ∧
    (run cfg0 envOk (fires [0, 0, 0]) (run cfg0 envOk bringUpTicks State.init)).TimerExpired =
      (run cfg0 envOk bringUpTicks State.init).TimerExpired +
        (([0, 0, 0] : List Nat).length : Int) ∧
    (run cfg0 envOk [.main, .main] (run cfg0 envOk (fires [0, 0, 0])
      (run cfg0 envOk bringUpTicks State.init))).LastTimerExpired = 3 :=
  ⟨⟨_, rfl⟩, by decide, by decide,
    (C10_jump_tolerated cfg0 envOk _ [0, 0, 0] ⟨_, rfl⟩ (by decide) (by decide)).1,
    by decide⟩

/-! ## The outcome of a failed bring-up -/

theorem calls_of_main_only (tr : List Ev) (h : callsOf .isr tr = []) :
    tr.map Ev.call = callsOf .main tr := by
  induction tr with
  | nil => rfl
  | cons e tr ih =>
      rcases e with ⟨ctx, c⟩
      cases ctx
      · have h' : callsOf .isr tr = [] := by simpa [callsOf, List.filter_cons] using h
        have ih' := ih h'
        simp only [callsOf] at ih' ⊢
        simp [List.filter_cons, ih']
      · simp [callsOf, List.filter_cons] at h

theorem failedCalls_silent (cfg : Config) (env : Env) (l : List Call)
    (h : failedCalls cfg env = some l) : printedCalls l = [] := by
  unfold failedCalls at h
  split_ifs at h <;> simp only [Option.some.injEq, reduceCtorEq] at h <;> subst h <;>
    simp [bringUp, printedCalls]

theorem failed_outcome (cfg : Config) (env : Env) (s : State) (h : Inv cfg env s)
    (hf : ¬ env.allOk) (hpc : s.pc = .exited XST_FAILURE) :
    outcome s = (some XST_FAILURE, [("Tmrctr interrupt Example Failed\r\n", [])]) := by
  have hu := (failing_unarmed cfg env s h hf).1
  obtain ⟨hm, -, -, -, hph, -⟩ := h
  have hisr : callsOf .isr s.trace = [] := by
    rcases hph with ⟨-, -, -, -, hi⟩ | ⟨hu', -⟩ | ⟨hu', -⟩
    · exact hi
    · rw [hu] at hu'; exact absurd hu' (by decide)
    · rw [hu] at hu'; exact absurd hu' (by decide)
  unfold MainInv at hm
  rw [hpc] at hm
  rcases hm with ⟨-, hok, -⟩ | ⟨-, l, hl, hc⟩
  · exact absurd hok hf
  · unfold outcome printed
    rw [hpc, calls_of_main_only s.trace hisr, hc]
    have hs := failedCalls_silent cfg env l hl
    unfold printedCalls at hs ⊢
    rw [List.filterMap_append, hs]
    rfl

theorem firstFailure_some (env : Env) (hf : ¬ env.allOk) : ∃ a, firstFailure env = some a := by
  unfold firstFailure
  split_ifs with h1 h2 h3 h4 h5
  · exact ⟨_, rfl⟩
  · exact ⟨_, rfl⟩
  · exact ⟨_, rfl⟩
  · exact ⟨_, rfl⟩
  · exact ⟨_, rfl⟩
  · exfalso
    apply hf
    refine ⟨?_, ?_, ?_, ?_, ?_⟩
    · exact not_not.mp h1
    · exact not_not.mp h2
    · simpa using h3
    · exact not_not.mp h4
    · exact not_not.mp h5

theorem failedCalls_injective (cfg : Config) (env env' : Env)
    (h : failedCalls cfg env = failedCalls cfg env') : firstFailure env = firstFailure env' := by
  unfold failedCalls at h
  unfold firstFailure
  split_ifs at h ⊢ <;> first | rfl | (simp [bringUp] at h)

set_option maxRecDepth 100000 in
/-- C11 as stated fails: when the timer initialization is the failing step
and when the self-test is the failing step, the outcome of `main` is the
same, the status `XST_FAILURE` and the one text "Tmrctr interrupt Example
Failed". -/
theorem C11_counterexample :
    firstFailure envTmrInitFails = some .tmrInit ∧
    firstFailure envSelfTestFails = some .selfTest ∧
    outcome (run cfg0 envTmrInitFails (List.replicate 8 .main) State.init) =
      (some XST_FAILURE, [("Tmrctr interrupt Example Failed\r\n", [])]) ∧
    outcome (run cfg0 envSelfTestFails (List.replicate 8 .main) State.init) =
      outcome (run cfg0 envTmrInitFails (List.replicate 8 .main) State.init) := by
  decide

/-- C11 as amended: whichever bring-up step fails first, under every schedule
in which the main line runs at least 8 statements `main` has returned
`XST_FAILURE` and the text written is the one message "Tmrctr interrupt
Example Failed", which names no step; the outcome is the same for every
failing step. What tells two failing steps apart is the driver calls made:
runs that stop at different steps have made different calls. -/
theorem C11_failure_outcome (cfg : Config) (env : Env) (ticks : List Tick)
    (hf : ¬ env.allOk) (hk : 8 ≤ ticks.count .main) :
    (∃ a, firstFailure env = some a) ∧
    outcome (run cfg env ticks State.init) =
      (some XST_FAILURE, [("Tmrctr interrupt Example Failed\r\n", [])]) ∧
    (∀ (env' : Env) (ticks' : List Tick), ¬ env'.allOk → 8 ≤ ticks'.count .main →
      outcome (run cfg env' ticks' State.init) = outcome (run cfg env ticks State.init)) ∧
    (∀ env' : Env, firstFailure env' ≠ firstFailure env →
      failedCalls cfg env' ≠ failedCalls cfg env) := by
  have hinit : ∀ e : Env, Inv cfg e State.init := fun e => ⟨MainInv_init cfg e, CoreInv_init⟩
  have key : ∀ (e : Env) (tk : List Tick), ¬ e.allOk → 8 ≤ tk.count .main →
      outcome (run cfg e tk State.init) =
        (some XST_FAILURE, [("Tmrctr interrupt Example Failed\r\n", [])]) := by
    intro e tk he hk'
    exact failed_outcome cfg e _ (Inv_run cfg e tk _ (hinit e)) he
      (failing_run cfg e he tk State.init (hinit e) hk')
  refine ⟨firstFailure_some env hf, key env ticks hf hk, ?_, ?_⟩
  · intro env' ticks' hf' hk'
    rw [key env' ticks' hf' hk', key env ticks hf hk]
  · intro env' hne heq
    exact hne (failedCalls_injective cfg env' env heq)

set_option maxRecDepth 100000 in
/-- C11 as amended at a concrete input: the self-test fails. -/
theorem C11_failure_outcome_witness :
    ¬ envSelfTestFails.allOk ∧ 8 ≤ (List.replicate 8 Tick.main).count .main ∧
    outcome (run cfg0 envSelfTestFails (List.replicate 8 .main) State.init) =
      (some XST_FAILURE, [("Tmrctr interrupt Example Failed\r\n", [])]) :=
  ⟨by decide, by decide,
    (C11_failure_outcome cfg0 envSelfTestFails (List.replicate 8 .main) (by decide)
      (by decide)).2.1⟩

/-! ## Timer periods -/

/-- C12: `main` of hello_world/helloworld.c, when its bring-up succeeds,
programs channel 0 with `XTC_INT_MODE_OPTION | XTC_AUTO_RELOAD_OPTION` (the
down-count bit is not set) and the reset value 100000000, and starts it; the
counter then counts up from 100000000 to the 32-bit rollover, which is
`2^32 - 100000000 = 4194967296` ticks from one expiry to the next, 41 seconds
and 94967296 ticks at 100 MHz, and not the 100000000 ticks (1 second) the
comment and the message of the program state. -/
theorem C12_helloworld_period (TIMER_INT_ID INTC_DEVICE_ID : Nat) :
    HelloWorld.main TIMER_INT_ID INTC_DEVICE_ID envOk =
      (none,
        [ .xil_printf "\r\n" [],
          .xil_printf "AXI TIMER INTERRUPT DEMO - ZUBoard 1CG\r\n" [],
          .XTmrCtr_Initialize 0,
          .XTmrCtr_SetHandler,
          .xil_printf "Timer handler registered\r\n" [],
          .XTmrCtr_SetOptions 0 (XTC_INT_MODE_OPTION ||| XTC_AUTO_RELOAD_OPTION),
          .xil_printf "Timer options configured\r\n" [],
          .XTmrCtr_SetResetValue 0 100000000,
          .xil_printf "Timer reset value set to 100M (1 sec @ 100 MHz)\r\n" [],
          .XScuGic_LookupConfig INTC_DEVICE_ID,
          .XScuGic_CfgInitialize,
          .XScuGic_Connect TIMER_INT_ID,
          .XScuGic_Enable TIMER_INT_ID,
          .Xil_ExceptionInit,
          .Xil_ExceptionRegisterHandler,
          .Xil_ExceptionEnable,
          .xil_printf "Interrupt system configured successfully\r\n" [],
          .XTmrCtr_Start 0,
          .xil_printf "Timer started - waiting for interrupts...\r\n" [] ]) ∧
    ((HelloWorld.main TIMER_INT_ID INTC_DEVICE_ID envOk).2.foldl Hw.apply Hw.reset).chan 0 =
      { options := XTC_INT_MODE_OPTION ||| XTC_AUTO_RELOAD_OPTION, resetValue := 100000000,
        running := true } ∧
    (XTC_INT_MODE_OPTION ||| XTC_AUTO_RELOAD_OPTION) &&& XTC_DOWN_COUNT_OPTION = 0 ∧
    ticksPerExpiry
      (((HelloWorld.main TIMER_INT_ID INTC_DEVICE_ID envOk).2.foldl Hw.apply Hw.reset).chan 0) =
      4194967296 ∧
    (4194967296 : Nat) = 41 * TICK_FREQUENCY_HZ + 94967296 ∧
    ticksPerExpiry
      (((HelloWorld.main TIMER_INT_ID INTC_DEVICE_ID envOk).2.foldl Hw.apply Hw.reset).chan 0) ≠
      1 * TICK_FREQUENCY_HZ := by
  have hmain : HelloWorld.main TIMER_INT_ID INTC_DEVICE_ID envOk = (none, _) := rfl
  have hchan : ((HelloWorld.main TIMER_INT_ID INTC_DEVICE_ID envOk).2.foldl Hw.apply
      Hw.reset).chan 0 =
      { options := XTC_INT_MODE_OPTION ||| XTC_AUTO_RELOAD_OPTION, resetValue := 100000000,
        running := true } := rfl
  refine ⟨hmain, hchan, by decide, ?_, by decide, ?_⟩
  · rw [hchan]; decide
  · rw [hchan]; decide

/-- C13: in main.c the channel is programmed with `XTC_INT_MODE_OPTION |
XTC_AUTO_RELOAD_OPTION`, which has no down-count bit, and `RESET_VALUE =
0xFA0A1F00`; the ticks from the reset value to the 32-bit rollover,
`2^32 - RESET_VALUE`, are exactly 100000000, one second at 100 MHz, and this
is the tick count of hello_world2, which counts down from `RESET_VALUE =
100000000` with `XTC_DOWN_COUNT_OPTION`. -/
theorem C13_reset_value_one_second (cfg : Config) :
    RESET_VALUE = 0xFA0A1F00 ∧ RESET_VALUE < 2 ^ 32 ∧
    Call.XTmrCtr_SetOptions TIMER_CNTR_0 (XTC_INT_MODE_OPTION ||| XTC_AUTO_RELOAD_OPTION) ∈
      bringUp cfg ∧
    Call.XTmrCtr_SetResetValue TIMER_CNTR_0 RESET_VALUE ∈ bringUp cfg ∧
    (XTC_INT_MODE_OPTION ||| XTC_AUTO_RELOAD_OPTION) &&& XTC_DOWN_COUNT_OPTION = 0 ∧
    2 ^ 32 - RESET_VALUE = 100000000 ∧
    ticksPerExpiry
      { options := XTC_INT_MODE_OPTION ||| XTC_AUTO_RELOAD_OPTION, resetValue := RESET_VALUE,
        running := true } = 1 * TICK_FREQUENCY_HZ ∧
    HelloWorld2.timerOptions &&& XTC_DOWN_COUNT_OPTION ≠ 0 ∧
    HelloWorld2.RESET_VALUE = 100000000 ∧
    ticksPerExpiry
      { options := HelloWorld2.timerOptions, resetValue := HelloWorld2.RESET_VALUE,
        running := true } =
      ticksPerExpiry
        { options := XTC_INT_MODE_OPTION ||| XTC_AUTO_RELOAD_OPTION, resetValue := RESET_VALUE,
          running := true } := by
  refine ⟨rfl, by decide, ?_, ?_, by decide, by decide, by decide, by decide, rfl, by decide⟩
  · simp [bringUp]
  · simp [bringUp]

/-! ## The bound of the counter -/

/-- C14: in every state the program reaches (any interleaving of main line
statements and interrupts, an interrupt being dispatched only while the
interrupt mode option of its channel is set), `0 ≤ TimerExpired ≤ 10`; when
`TimerExpired = 10` the handler has called `XTmrCtr_SetOptions(channel 0, 0)`,
the options of channel 0 (and of every channel) are 0 and no interrupt is
dispatched; so no schedule takes `TimerExpired` past 10, and the consumer, at
its test `TimerExpired == 10` with the value 10, goes on to `XTmrCtr_Stop`. -/
theorem C14_counter_bounded (cfg : Config) (env : Env) (s : State)
    (hr : Reachable cfg env s) :
    0 ≤ s.TimerExpired ∧ s.TimerExpired ≤ 10 ∧
    (s.TimerExpired = 10 →
      (⟨.isr, .XTmrCtr_SetOptions TIMER_CNTR_0 0⟩ : Ev) ∈ s.trace ∧
      (s.hw.chan TIMER_CNTR_0).options = 0 ∧
      (∀ n, (s.hw.chan n).options = 0) ∧
      (∀ n e, step cfg env (.irq n e) s = none)) ∧
    (∀ ticks, (run cfg env ticks s).TimerExpired ≤ 10) ∧
    (s.pc = .boundCheck → s.TimerExpired = 10 → (next cfg env .main s).pc = .stop) := by
  have hinv := Inv_reachable cfg env s hr
  refine ⟨hinv.2.2.1, hinv.2.2.2.1, ?_, ?_, ?_⟩
  · intro h10
    obtain ⟨hz, -, hm⟩ := bound_reached s hinv.2 (le_of_eq h10.symm)
    refine ⟨hm, hz 0, hz, ?_⟩
    intro n e
    simp [step, hz n, intMode_zero]
  · intro ticks
    exact (Inv_reachable cfg env _ (Reachable_run cfg env s ticks hr)).2.2.2.1
  · intro hpc h10
    rcases s with ⟨pc, last, te, dev, tr⟩
    simp only at hpc h10
    subst hpc
    simp [next, step, main, TmrCtrIntrExample, h10, State.goto]

set_option maxRecDepth 100000 in
/-- C14 at a concrete input: after the tenth expiry `TimerExpired` is 10 and
the options of channel 0 are 0. -/
theorem C14_counter_bounded_witness :
    Reachable cfg0 envOk stateAtBound ∧ stateAtBound.TimerExpired = 10 ∧
    (stateAtBound.hw.chan TIMER_CNTR_0).options = 0 :=
  ⟨⟨_, rfl⟩, by decide,
    ((C14_counter_bounded cfg0 envOk stateAtBound ⟨_, rfl⟩).2.2.1 (by decide)).2.1⟩

/-! ## Order of the two contexts at the end of the sequence -/

theorem precedes_of_none (a : Ev) (b : Ev → Bool) (l : List Ev)
    (h : ∀ e ∈ l, b e = false) : precedes a b l = true := by
  induction l with
  | nil => rfl
  | cons e tr ih =>
      have he : b e = false := h e (List.mem_cons_self _ _)
      have ih' := ih (fun x hx => h x (List.mem_cons_of_mem _ hx))
      simp [precedes, he, ih']

theorem precedes_append (a : Ev) (b : Ev → Bool) (tr l : List Ev)
    (h : precedes a b tr = true) (hl : a ∈ tr ∨ ∀ e ∈ l, b e = false) :
    precedes a b (tr ++ l) = true := by
  induction tr with
  | nil =>
      rcases hl with hl | hl
      · exact absurd hl (List.not_mem_nil _)
      · exact precedes_of_none a b l hl
  | cons e tr ih =>
      by_cases hea : e = a
      · simp [precedes, hea]
      · by_cases hb : b e = true
        · simp [precedes, hea, hb] at h
        · simp only [precedes, if_neg hea, if_neg hb] at h
          have hl' : a ∈ tr ∨ ∀ e ∈ l, b e = false := by
            rcases hl with hl | hl
            · rcases List.mem_cons.mp hl with h1 | h1
              · exact absurd h1.symm hea
              · exact Or.inl h1
            · exact Or.inr hl
          have ih' := ih h hl'
          simp only [List.cons_append, precedes, if_neg hea, if_neg hb]
          exact ih'

theorem quietAfter_of_none (b : Ev → Bool) (l : List Ev) (h : ∀ e ∈ l, b e = false) :
    quietAfter b l = true := by
  induction l with
  | nil => rfl
  | cons e tr ih =>
      have he : b e = false := h e (List.mem_cons_self _ _)
      have ih' := ih (fun x hx => h x (List.mem_cons_of_mem _ hx))
      simp [quietAfter, he, ih']

theorem quietAfter_of_main (b : Ev → Bool) (l : List Ev) (h : ∀ e ∈ l, e.ctx = Ctx.main) :
    quietAfter b l = true := by
  induction l with
  | nil => rfl
  | cons e tr ih =>
      have ht : ∀ x ∈ tr, x.ctx = Ctx.main := fun x hx => h x (List.mem_cons_of_mem _ hx)
      by_cases hb : b e = true
      · simp only [quietAfter, if_pos hb]
        exact List.all_eq_true.mpr (fun x hx => decide_eq_true (ht x hx))
      · simp only [quietAfter, if_neg hb]
        exact ih ht

theorem quietAfter_append_main (b : Ev → Bool) (tr l : List Ev)
    (h : quietAfter b tr = true) (hl : ∀ e ∈ l, e.ctx = Ctx.main) :
    quietAfter b (tr ++ l) = true := by
  induction tr with
  | nil => exact quietAfter_of_main b l hl
  | cons e tr ih =>
      by_cases hb : b e = true
      · simp only [quietAfter, if_pos hb] at h
        simp only [List.cons_append, quietAfter, if_pos hb]
        rw [List.all_eq_true] at h ⊢
        intro x hx
        rcases List.mem_append.mp hx with h1 | h1
        · exact h x h1
        · exact decide_eq_true (hl x h1)
      · simp only [quietAfter, if_neg hb] at h
        simp only [List.cons_append, quietAfter, if_neg hb]
        exact ih h

theorem main_trace (cfg : Config) (env : Env) (s : State) :
    (next cfg env .main s).trace = s.trace ∨
    ∃ c, (next cfg env .main s).trace = s.trace ++ [⟨.main, c⟩] ∧
      (isStop ⟨.main, c⟩ = true → s.pc = .stop) := by
  rcases s with ⟨pc, last, te, dev, tr⟩
  cases pc <;>
    simp only [next, step, main, TmrCtrIntrExample, TmrCtrSetupIntrSystem,
      TmrCtrDisableIntr] <;>
    (try split_ifs) <;>
    simp [State.goto, State.log, State.call, isStop]

theorem handler_trace (n : Nat) (e : Bool) (s : State) :
    ∃ l, (TimerCounterHandler n e s).trace = s.trace ++ l ∧
      ∀ x ∈ l, isStop x = false := by
  unfold TimerCounterHandler
  simp only [State.log, State.call]
  split_ifs
  · exact ⟨[⟨.isr, .XTmrCtr_IsExpired n⟩,
        ⟨.isr, .xil_printf "IRQ %d\r\n" [wrapInt32 (s.TimerExpired + 1)]⟩,
        ⟨.isr, .XTmrCtr_SetOptions n 0⟩], by simp, by simp [isStop]⟩
  · exact ⟨[⟨.isr, .XTmrCtr_IsExpired n⟩,
        ⟨.isr, .xil_printf "IRQ %d\r\n" [wrapInt32 (s.TimerExpired + 1)]⟩], by simp,
      by simp [isStop]⟩
  · exact ⟨[⟨.isr, .XTmrCtr_IsExpired n⟩], by simp, by simp [isStop]⟩

theorem OrderInv_init : OrderInv State.init := by
  refine ⟨?_, rfl, rfl⟩
  intro h
  simp [State.init] at h

theorem stop_gate (s : State) (h : CoreInv s) (hpc : s.pc = .stop) :
    (∀ n, (s.hw.chan n).options = 0) ∧ s.pc.unarmed = false ∧
      (⟨.isr, .XTmrCtr_SetOptions 0 0⟩ : Ev) ∈ s.trace := by
  have hl := h.2.2.2.2
  unfold LoopInv at hl
  rw [hpc] at hl
  exact bound_reached s h (le_of_eq hl.symm)

theorem OrderInv_next (cfg : Config) (env : Env) (t : Tick) (s : State) (h : Inv cfg env s)
    (ho : OrderInv s) : OrderInv (next cfg env t s) := by
  obtain ⟨hg, hp, hq⟩ := ho
  cases t with
  | main =>
      rcases main_trace cfg env s with hsame | ⟨c, happ, hstop⟩
      · refine ⟨?_, ?_, ?_⟩
        · intro hany
          rw [hsame] at hany
          obtain ⟨hz, hu⟩ := hg hany
          obtain ⟨h1, h2, -⟩ := disarmed_next cfg env .main s h.2 hz hu
          exact ⟨h1, h2⟩
        · rw [hsame]; exact hp
        · rw [hsame]; exact hq
      · by_cases hc : isStop ⟨.main, c⟩ = true
        · obtain ⟨hz, hu, hm⟩ := stop_gate s h.2 (hstop hc)
          obtain ⟨h1, h2, -⟩ := disarmed_next cfg env .main s h.2 hz hu
          refine ⟨fun _ => ⟨h1, h2⟩, ?_, ?_⟩
          · rw [happ]; exact precedes_append _ _ _ _ hp (Or.inl hm)
          · rw [happ]
            exact quietAfter_append_main _ _ _ hq (by simp)
        · refine ⟨?_, ?_, ?_⟩
          · intro hany
            rw [happ, List.any_append] at hany
            simp only [List.any_cons, hc, List.any_nil, Bool.or_false, Bool.or_eq_true,
              or_false] at hany
            obtain ⟨hz, hu⟩ := hg hany
            obtain ⟨h1, h2, -⟩ := disarmed_next cfg env .main s h.2 hz hu
            exact ⟨h1, h2⟩
          · rw [happ]
            refine precedes_append _ _ _ _ hp (Or.inr ?_)
            intro x hx
            rw [List.mem_singleton.mp hx]
            simpa using hc
          · rw [happ]
            exact quietAfter_append_main _ _ _ hq (by simp)
  | irq n e =>
      by_cases hopen : intMode (s.hw.chan n).options = true
      · have hnone : s.trace.any isStop = false := by
          by_contra hcon
          have hany : s.trace.any isStop = true := by simpa using hcon
          obtain ⟨hz, -⟩ := hg hany
          rw [hz n, intMode_zero] at hopen
          exact absurd hopen (by decide)
        obtain ⟨l, hl, hns⟩ := handler_trace n e s
        have hnext : next cfg env (.irq n e) s = TimerCounterHandler n e s := by
          simp [next, step, hopen]
        have hall : ∀ x ∈ s.trace ++ l, isStop x = false := by
          intro x hx
          rcases List.mem_append.mp hx with h1 | h1
          · have := List.any_eq_false.mp hnone x h1
            simpa using this
          · exact hns x h1
        rw [hnext]
        refine ⟨?_, ?_, ?_⟩
        · intro hany
          rw [hl] at hany
          obtain ⟨x, hx, hxs⟩ := List.any_eq_true.mp hany
          rw [hall x hx] at hxs
          exact absurd hxs (by decide)
        · rw [hl]; exact precedes_of_none _ _ _ hall
        · rw [hl]; exact quietAfter_of_none _ _ hall
      · have hnext : next cfg env (.irq n e) s = s := by
          simp [next, step, hopen]
        rw [hnext]
        exact ⟨hg, hp, hq⟩

theorem OrderInv_run (cfg : Config) (env : Env) (ticks : List Tick) :
    ∀ s : State, Inv cfg env s → OrderInv s → OrderInv (run cfg env ticks s) := by
  induction ticks with
  | nil => intro s _ ho; exact ho
  | cons t ts ih =>
      intro s h ho
      exact ih _ (Inv_next cfg env t s h) (OrderInv_next cfg env t s h ho)

theorem OrderInv_reachable (cfg : Config) (env : Env) (s : State) (h : Reachable cfg env s) :
    OrderInv s := by
  obtain ⟨ticks, rfl⟩ := h
  exact OrderInv_run cfg env ticks _ ⟨MainInv_init cfg env, CoreInv_init⟩ OrderInv_init

/-- C15: in every state the program reaches, the handler's
`XTmrCtr_SetOptions(channel 0, 0)` is in the log before the first call of
`XTmrCtr_Stop`, and nothing is logged in interrupt context after that call.
When the consumer stands at its test `TimerExpired == 10` and the test
succeeds, the handler has already called `XTmrCtr_SetOptions(channel 0, 0)`
and the options of every channel are 0; and from `XTmrCtr_Stop` to
`XScuGic_Disconnect` no interrupt is dispatched (an interrupt being
dispatched only while the interrupt mode option of its channel is set). A log
in which `XTmrCtr_Stop` came first would not satisfy `precedes`. -/
theorem C15_stop_after_disarm (cfg : Config) (env : Env) (s : State)
    (hr : Reachable cfg env s) :
    precedes ⟨.isr, .XTmrCtr_SetOptions TIMER_CNTR_0 0⟩ isStop s.trace = true ∧
    quietAfter isStop s.trace = true ∧
    (s.pc = .boundCheck → s.TimerExpired = 10 →
      (next cfg env .main s).pc = .stop ∧
      (⟨.isr, .XTmrCtr_SetOptions TIMER_CNTR_0 0⟩ : Ev) ∈ s.trace ∧
      (∀ n, (s.hw.chan n).options = 0)) ∧
    (s.pc = .stop ∨ s.pc = .gicDisable ∨ s.pc = .gicDisconnect →
      (⟨.isr, .XTmrCtr_SetOptions TIMER_CNTR_0 0⟩ : Ev) ∈ s.trace ∧
      (∀ n e, step cfg env (.irq n e) s = none) ∧
      (∀ n e, next cfg env (.irq n e) s = s)) ∧
    precedes ⟨.isr, .XTmrCtr_SetOptions TIMER_CNTR_0 0⟩ isStop
      [⟨.main, .XTmrCtr_Stop TIMER_CNTR_0⟩, ⟨.isr, .XTmrCtr_SetOptions TIMER_CNTR_0 0⟩] =
      false := by
  have hinv := Inv_reachable cfg env s hr
  obtain ⟨-, hp, hq⟩ := OrderInv_reachable cfg env s hr
  refine ⟨hp, hq, ?_, ?_, by decide⟩
  · intro hpc h10
    obtain ⟨hz, -, hm⟩ := bound_reached s hinv.2 (le_of_eq h10.symm)
    refine ⟨?_, hm, hz⟩
    rcases s with ⟨pc, last, te, dev, tr⟩
    simp only at hpc h10
    subst hpc
    simp [next, step, main, TmrCtrIntrExample, h10, State.goto]
  · intro hpc
    have h10 : s.TimerExpired = 10 := by
      have hl := hinv.2.2.2.2.2
      unfold LoopInv at hl
      rcases hpc with hpc | hpc | hpc <;> rw [hpc] at hl <;> exact hl
    obtain ⟨hz, -, hm⟩ := bound_reached s hinv.2 (le_of_eq h10.symm)
    refine ⟨hm, ?_, ?_⟩
    · intro n e
      simp [step, hz n, intMode_zero]
    · intro n e
      simp [next, step, hz n, intMode_zero]

set_option maxRecDepth 100000 in
/-- C15 at a concrete input: in the run of ten rounds `XTmrCtr_Stop` is
called, and the handler's `XTmrCtr_SetOptions(channel 0, 0)` comes before
it in the log. -/
theorem C15_stop_after_disarm_witness :
    Reachable cfg0 envOk stateStopped ∧ stateStopped.trace.any isStop = true ∧
    precedes ⟨.isr, .XTmrCtr_SetOptions TIMER_CNTR_0 0⟩ isStop stateStopped.trace = true :=
  ⟨⟨_, rfl⟩, by decide, (C15_stop_after_disarm cfg0 envOk stateStopped ⟨_, rfl⟩).1⟩

end TmrCtr
